import Mathlib

/-!
# Learning-management backend: authentication and credential lifecycle

A shallow embedding of the request handlers of the backend
(`utils/asyncHandler.util.js`, `utils/apiError.util.js`,
`utils/apiResponse.util.js`, `utils/cloudinary.util.js`,
`middlewares/auth.middleware.js`, `models/userProfile.model.js`,
`middlewares/multer.middleware.js`, `models/payment.model.js`,
`models/course.model.js`, `controllers/userProfile.controller.js`,
`controllers/payment.controller.js`, `controllers/course.controller.js`).

* The `users` collection is a list of `User` documents; a handler maps the
  collection before the request to its result and the collection after it.
* A thrown JavaScript value is the `Except.error` side of a handler result.
* `Date.now()`, the random-byte source and the bcrypt salt are read from an
  explicit `Env`; cryptographic digests are fields of `Prims`; the other
  libraries and services (string methods, Cloudinary, Razorpay, the mail
  transport) are fields of `Ext`.
-/

set_option autoImplicit false

namespace LMS

/-! ## Data model -/

/-- A MongoDB document identifier (12 bytes), as a number. -/
abbrev ObjectId := Nat

/-- One entry of `userSchema.orders`. -/
structure Order where
  order_id : Option String
  receipt_id : Option String
  status : Option String
  deriving DecidableEq, Repr

/-- A document of the `User` model (`userSchema`).  A field that the document
does not carry (never set, unset, or left out by a projection) is `none`.
`forgotPasswordExpiryDate` has schema type `String`. -/
structure User where
  _id : ObjectId
  avatar : Option String
  name : String
  bio : String
  email : String
  mobile : String
  password : Option String
  orders : List Order
  forgotPasswordToken : Option String
  forgotPasswordExpiryDate : Option String
  role : String
  deriving DecidableEq, Repr

/-- The projection `.select("-password")`. -/
def User.selectMinusPassword (u : User) : User :=
  { u with password := none }

/-- A JavaScript error object: the properties the handlers read. -/
structure JsError where
  name : String
  message : String
  code : Option Nat
  statusCode : Option Nat
  deriving DecidableEq, Repr

/-- The constructor `new ApiError(statusCode, message)`: the status is kept in
the property `statusCode`; no property `code` is set. -/
def ApiError (statusCode : Nat) (message : String) : JsError :=
  { name := "Error", message := message, code := none, statusCode := some statusCode }

/-- An error thrown by a library (no `code`, no `statusCode`). -/
def libError (name message : String) : JsError :=
  { name := name, message := message, code := none, statusCode := none }

/-- The claims of a session token, with the registered claims `iat` and `exp`
(seconds since the epoch). -/
structure Payload where
  id : Option ObjectId
  email : String
  role : String
  iat : Nat
  exp : Option Nat
  deriving DecidableEq, Repr

/-- The value of the `token` cookie: a compact token made of a payload and a
signature, or any other string. -/
inductive Token where
  | jws (payload : Payload) (signature : String)
  | text (s : String)
  deriving DecidableEq, Repr

/-- A cookie set with `res.cookie(name, value, options)`; the value `null` is
`none`. -/
structure Cookie where
  name : String
  value : Option Token
  maxAge : Nat
  secure : Bool
  httpOnly : Bool
  deriving DecidableEq, Repr

/-- An order object returned by `razorpay.orders.create`. -/
structure RazorpayOrder where
  id : String
  amount : Int
  currency : String
  receipt : String
  status : String
  deriving DecidableEq, Repr

/-- A document of the `Payment` model (`paymentSchema`). -/
structure Payment where
  _id : ObjectId
  name : String
  email : String
  mobile : String
  order_id : String
  payment_id : String
  signature : String
  amount : Int
  currency : String
  status : String
  deriving DecidableEq, Repr

/-- One entry of `courseSchema.lectures`. -/
structure Lecture where
  _id : ObjectId
  lecture : Option String
  title : Option String
  description : Option String
  deriving DecidableEq, Repr

/-- A document of the `Course` model (`courseSchema`). -/
structure Course where
  _id : ObjectId
  course : Option String
  title : String
  description : String
  category : String
  lectures : List Lecture
  numberOfLectures : Nat
  createdBy : String
  deriving DecidableEq, Repr

/-- The `data` of an `ApiResponse` that is not a user document. -/
inductive Data where
  /-- The empty object `{}`. -/
  | empty
  | order (o : RazorpayOrder)
  | payment (p : Payment)
  | text (s : String)
  | course (c : Course)
  deriving DecidableEq, Repr

/-- The JSON body of a response. -/
inductive Body where
  /-- The object `{ success: false, message }`. -/
  | failure (message : String)
  /-- An `ApiResponse` object `{ statusCode, success, data, message }`. -/
  | api (statusCode : Nat) (success : Bool) (data : Option User) (message : String)
  /-- An `ApiResponse` object whose `data` is not a user document. -/
  | apiData (statusCode : Nat) (success : Bool) (data : Data) (message : String)
  deriving DecidableEq, Repr

/-- The constructor `new ApiResponse(statusCode, data, message)`. -/
def ApiResponse (statusCode : Nat) (data : Option User) (message : String) : Body :=
  Body.api statusCode (decide (statusCode < 400)) data message

/-- The constructor `new ApiResponse(statusCode, data, message)` on `data` that
is not a user document. -/
def ApiResponseData (statusCode : Nat) (data : Data) (message : String) : Body :=
  Body.apiData statusCode (decide (statusCode < 400)) data message

/-- What `res.status(..).cookie(..).json(..)` sends.  The field `sent` is
`false` when nothing leaves the server: `res.json` throws when the status code
set is outside 100..999. -/
structure Response where
  status : Nat
  cookies : List Cookie
  body : Body
  sent : Bool := true
  deriving DecidableEq, Repr

/-- The JavaScript expression `x || d` on an optional number. -/
def orDefault (x : Option Nat) (d : Nat) : Nat :=
  match x with
  | some n => if n = 0 then d else n
  | none => d

/-- Whether a number is a status code that the server can send (100..999);
`res.json` throws on any other. -/
def validStatus (code : Nat) : Bool :=
  decide (100 ≤ code) && decide (code ≤ 999)

/-- The wrapper `asyncHandler(fn)`: the result of `fn` when it returns, and
`res.status(error.code || 500).json({ success: false, message: error.message })`
when it throws; with a `code` that is no status code (the 11000 of a duplicate
key) that call throws in turn and nothing is sent.  The second component (the
collection after the call) is passed through. -/
def asyncHandler {σ : Type} (fn : Except JsError Response × σ) : Response × σ :=
  match fn with
  | (Except.ok r, s) => (r, s)
  | (Except.error error, s) =>
      ({ status := orDefault error.code 500, cookies := [],
         body := Body.failure error.message,
         sent := validStatus (orDefault error.code 500) }, s)

/-! ## Session tokens -/

/-- Cryptographic primitives of the libraries `crypto`, `bcryptjs` and
`jsonwebtoken`, left uninterpreted. -/
structure Prims where
  /-- The HS256 signature of an encoded payload under a secret. -/
  hs256 : String → Payload → String
  /-- The digest `crypto.createHash(sha256).update(s).digest(hex)`. -/
  sha256Hex : String → String
  /-- The digest `bcrypt.hash(plaintext, rounds)` computed with a given salt. -/
  bcryptHash : String → Nat → String → String
  /-- The predicate `bcrypt.compare(plaintext, digest)`. -/
  bcryptCompare : String → String → Bool

/-- Process environment and ambient inputs of one request. -/
structure Env where
  JWT_SECRET : String
  /-- The configured lifetime `JWT_EXPIRY` of a session token, in seconds. -/
  JWT_EXPIRY : Nat
  /-- The value of `Date.now()` (milliseconds since the epoch). -/
  now : Nat
  /-- The source of `crypto.randomBytes`: byte number `i` of the next draw. -/
  entropy : Nat → Fin 256
  /-- The salt that `bcrypt.hash` draws. -/
  salt : String

/-- Modelled from the spec: `JWT.sign` of the library `jsonwebtoken`, which is
not part of the sources.  It encodes the claims plus an expiry drawn from the
lifetime and signs them with the secret; the clock of a token counts whole
seconds. -/
def JWT.sign (P : Prims) (id : Option ObjectId) (email role : String) (secret : String)
    (expiresIn : Nat) (now : Nat) : Token :=
  let payload : Payload :=
    { id := id, email := email, role := role, iat := now / 1000,
      exp := some (now / 1000 + expiresIn) }
  Token.jws payload (P.hs256 secret payload)

/-- Modelled from the spec: `JWT.verify` of the library `jsonwebtoken`, which
is not part of the sources.  It throws when the structure is malformed, when
the signature does not match, or when the expiry has passed, and returns the
claims otherwise. -/
def JWT.verify (P : Prims) (token : Token) (secret : String) (now : Nat) :
    Except JsError Payload :=
  match token with
  | Token.text _ => Except.error (libError "JsonWebTokenError" "jwt malformed")
  | Token.jws payload signature =>
      if P.hs256 secret payload ≠ signature then
        Except.error (libError "JsonWebTokenError" "invalid signature")
      else
        match payload.exp with
        | some exp =>
            if now / 1000 ≥ exp then
              Except.error (libError "TokenExpiredError" "jwt expired")
            else Except.ok payload
        | none => Except.ok payload

/-- The method `generateJWTToken` of a user document. -/
def User.generateJWTToken (P : Prims) (env : Env) (this : User) : Token :=
  JWT.sign P (some this._id) this.email this.role env.JWT_SECRET env.JWT_EXPIRY env.now

/-! ## The authentication and authorisation middlewares -/

/-- A request as the middlewares see it: the `token` cookie and `req.user`. -/
structure Request where
  token : Option Token
  user : Option User
  deriving DecidableEq, Repr

/-- The effect of a middleware on one request: the response it sent (if any),
`req.user` afterwards, and how many times it called `next`. -/
structure Outcome where
  response : Option Response
  user : Option User
  nextCalls : Nat
  deriving DecidableEq, Repr

/-- The JavaScript test `!token` on a cookie value: only the empty string is
falsy. -/
def Token.falsy : Token → Bool
  | Token.text s => decide (s = "")
  | Token.jws _ _ => false

/-- The query `User.findById(id)`; an absent id finds nothing. -/
def findById (db : List User) (id : Option ObjectId) : Option User :=
  match id with
  | none => none
  | some i => db.find? (fun u => u._id = i)

/-- The response `res.status(status).json({ success: false, message })`. -/
def failureResponse (status : Nat) (message : String) : Response :=
  { status := status, cookies := [], body := Body.failure message }

/-- The middleware `isLoggedIn`. -/
def isLoggedIn (P : Prims) (env : Env) (db : List User) (req : Request) : Outcome :=
  let unauthorized : Outcome :=
    { response := some (failureResponse 401 "Unauthorized access! Please login first."),
      user := req.user, nextCalls := 0 }
  match req.token with
  | none => unauthorized
  | some token =>
      if token.falsy then unauthorized
      else
        match JWT.verify P token env.JWT_SECRET env.now with
        | Except.error error =>
            { response := some (failureResponse 500 error.message),
              user := req.user, nextCalls := 0 }
        | Except.ok decodedToken =>
            match (findById db decodedToken.id).map User.selectMinusPassword with
            | none =>
                { response := some (failureResponse 401 "Invalid Access Token."),
                  user := req.user, nextCalls := 0 }
            | some user =>
                { response := none, user := some user, nextCalls := 1 }

/-- The middleware `authorizeRoles(...roles)`.  Reading `req.user.role` when
`req.user` is undefined throws a `TypeError`, which the `catch` answers. -/
def authorizeRoles (roles : List String) (req : Request) : Outcome :=
  match req.user with
  | none =>
      { response := some (failureResponse 500
          "Cannot read properties of undefined (reading role)"),
        user := req.user, nextCalls := 0 }
  | some user =>
      if ¬ roles.contains user.role then
        { response := some (failureResponse 403
            "You do not have permission to view this route."),
          user := req.user, nextCalls := 0 }
      else
        { response := none, user := req.user, nextCalls := 1 }

/-! ## Reset tokens -/

/-- One lowercase hexadecimal digit. -/
def hexDigit (d : Nat) : Char :=
  if d < 10 then Char.ofNat (48 + d) else Char.ofNat (87 + d)

/-- The characters of `Buffer.toString(hex)`: two digits per byte. -/
def hexChars : List (Fin 256) → List Char
  | [] => []
  | b :: bs => hexDigit (b.val / 16) :: hexDigit (b.val % 16) :: hexChars bs

/-- The string `buffer.toString(hex)`. -/
def toHex (bytes : List (Fin 256)) : String :=
  String.mk (hexChars bytes)

/-- The call `crypto.randomBytes(n)`: the next `n` bytes of the source. -/
def randomBytes (env : Env) (n : Nat) : List (Fin 256) :=
  (List.range n).map env.entropy

/-- The last `w` decimal digits of `n`, most significant first. -/
def digitsFixed : Nat → Nat → List Char
  | 0, _ => []
  | w + 1, n => digitsFixed w (n / 10) ++ [Char.ofNat (48 + n % 10)]

/-- The number of decimal digits of `n` (at least one), with fuel. -/
def numDigitsAux : Nat → Nat → Nat
  | 0, _ => 1
  | fuel + 1, n => if n < 10 then 1 else numDigitsAux fuel (n / 10) + 1

/-- The number of decimal digits of `n` (at least one). -/
def numDigits (n : Nat) : Nat :=
  numDigitsAux n n

/-- The string `String(n)` of a non-negative integer: the cast of a number
assigned to, or queried against, a path of schema type `String`. -/
def decimal (n : Nat) : String :=
  String.mk (digitsFixed (numDigits n) n)

/-- The number that a string of decimal digits denotes. -/
def decimalValue (s : String) : Nat :=
  s.data.foldl (fun acc c => 10 * acc + (c.toNat - 48)) 0

/-- The order of two strings in the database: code point by code point, a
proper prefix first. -/
def lexLt : List Char → List Char → Bool
  | _, [] => false
  | [], _ :: _ => true
  | a :: as, b :: bs =>
      decide (a.toNat < b.toNat) || (decide (a.toNat = b.toNat) && lexLt as bs)

/-- The query operator `{ $gt: q }` on a path of schema type `String`: an
absent field matches nothing. -/
def mongoGt (field : Option String) (q : String) : Bool :=
  match field with
  | none => false
  | some s => lexLt q.data s.data

/-- The method `generatePasswordResetToken` of a user document: the returned
raw token and the document afterwards. -/
def User.generatePasswordResetToken (P : Prims) (env : Env) (this : User) : String × User :=
  let forgotToken := toHex (randomBytes env 20)
  (forgotToken,
    { this with
      forgotPasswordToken := some (P.sha256Hex forgotToken)
      forgotPasswordExpiryDate := some (decimal (env.now + 15 * 60 * 1000)) })

/-! ## Saving a user document -/

/-- The paths of a user document that the handlers assign. -/
inductive Path where
  | avatar | name | bio | password | orders
  | forgotPasswordToken | forgotPasswordExpiryDate
  deriving DecidableEq, Repr

/-- The JavaScript `length` of a string (UTF-16 code units). -/
def jsLength (s : String) : Nat :=
  s.data.foldl (fun n c => n + (if c.toNat < 65536 then 1 else 2)) 0

/-- The schema validators of `password` (`required`, `minLength: 8`), run by
`save` when the path is modified. -/
def validatePassword (password : Option String) : Except JsError Unit :=
  match password with
  | none =>
      Except.error (libError "ValidationError"
        "User validation failed: password: Password is required.")
  | some p =>
      if jsLength p = 0 then
        Except.error (libError "ValidationError"
          "User validation failed: password: Password is required.")
      else if jsLength p < 8 then
        Except.error (libError "ValidationError"
          "User validation failed: password: Password must be at least 8 characters long.")
      else Except.ok ()

/-- The hook `userSchema.pre(save)`: hash the password with cost factor 10 if
it has been modified. -/
def preSave (P : Prims) (env : Env) (modified : List Path) (this : User) : User :=
  if ¬ modified.contains Path.password then this
  else { this with password := this.password.map (fun p => P.bcryptHash p 10 env.salt) }

/-- The stored document after the modified paths of `this` are written. -/
def writePaths (modified : List Path) (this stored : User) : User :=
  { stored with
    avatar := if modified.contains Path.avatar then this.avatar else stored.avatar
    name := if modified.contains Path.name then this.name else stored.name
    bio := if modified.contains Path.bio then this.bio else stored.bio
    password := if modified.contains Path.password then this.password else stored.password
    orders := if modified.contains Path.orders then this.orders else stored.orders
    forgotPasswordToken :=
      if modified.contains Path.forgotPasswordToken then this.forgotPasswordToken
      else stored.forgotPasswordToken
    forgotPasswordExpiryDate :=
      if modified.contains Path.forgotPasswordExpiryDate then this.forgotPasswordExpiryDate
      else stored.forgotPasswordExpiryDate }

/-- The call `this.save()` on a document loaded from the collection:
validation of the modified password, the pre-save hook, then the write of the
modified paths.  It returns the document after the hook and the collection. -/
def save (P : Prims) (env : Env) (db : List User) (this : User) (modified : List Path) :
    Except JsError (User × List User) :=
  match (if modified.contains Path.password then validatePassword this.password
         else Except.ok ()) with
  | Except.error e => Except.error e
  | Except.ok () =>
      let doc := preSave P env modified this
      Except.ok (doc, db.map (fun stored =>
        if stored._id = doc._id then writePaths modified doc stored else stored))

/-- The query `User.findOne(filter)`: the first matching document, without the
`password` path (`select: false`). -/
def findOne (db : List User) (filter : User → Bool) : Option User :=
  (db.find? filter).map User.selectMinusPassword

/-- The update `User.findByIdAndUpdate(id, { $set: { password } }, { new: true })`:
neither validators nor save hooks run. -/
def findByIdAndUpdatePassword (db : List User) (id : ObjectId) (password : String) :
    Option User × List User :=
  let db1 := db.map (fun stored =>
    if stored._id = id then { stored with password := some password } else stored)
  (findById db1 (some id), db1)

/-! ## Controllers -/

/-- The body of the controller `changePassword` (the function that
`asyncHandler` wraps). -/
def changePasswordFn (P : Prims) (db : List User) (reqUser : Option User)
    (oldPassword newPassword : Option String) : Except JsError Response × List User :=
  match reqUser with
  | none =>
      (Except.error (libError "TypeError"
        "Cannot destructure property id of req.user as it is undefined."), db)
  | some ru =>
    let id := ru._id
    match oldPassword, newPassword with
    | some oldPassword, some newPassword =>
      if oldPassword.isEmpty || newPassword.isEmpty then
        (Except.error (ApiError 400 "Both old and new passwords must be provided."), db)
      else
        match findById db (some id) with
        | none => (Except.error (ApiError 404 "User not found."), db)
        | some user =>
          match user.password with
          | none =>
              (Except.error (libError "Error" "Illegal arguments: string, undefined"), db)
          | some stored =>
            if ¬ P.bcryptCompare oldPassword stored then
              (Except.error (ApiError 401 "Invalid old password."), db)
            else if P.bcryptCompare newPassword stored then
              (Except.error
                (ApiError 400 "New password should not match the old password."), db)
            else
              let (user, db1) := findByIdAndUpdatePassword db id newPassword
              (Except.ok { status := 200, cookies := [],
                           body := ApiResponse 200 (user.map User.selectMinusPassword)
                             "Password changed successfully." }, db1)
    | _, _ =>
        (Except.error (ApiError 400 "Both old and new passwords must be provided."), db)

/-- The controller `changePassword`. -/
def changePassword (P : Prims) (db : List User) (reqUser : Option User)
    (oldPassword newPassword : Option String) : Response × List User :=
  asyncHandler (changePasswordFn P db reqUser oldPassword newPassword)

/-- The filter of the query in `resetPassword`:
`{ forgotPasswordToken: hashedToken, forgotPasswordExpiryDate: { $gt: Date.now() } }`;
the number is cast to the schema type of the path, a string. -/
def resetQuery (env : Env) (hashedToken : String) (u : User) : Bool :=
  decide (u.forgotPasswordToken = some hashedToken) &&
    mongoGt u.forgotPasswordExpiryDate (decimal env.now)

/-- The body of the controller `resetPassword` (the function that
`asyncHandler` wraps). -/
def resetPasswordFn (P : Prims) (env : Env) (db : List User) (forgotToken : String)
    (password : Option String) : Except JsError Response × List User :=
  let hashedToken := P.sha256Hex forgotToken
  match findOne db (resetQuery env hashedToken) with
  | none =>
      (Except.error (ApiError 401 "Invalid or expired token. Please try again."), db)
  | some user =>
      let user := { user with
        password := password
        forgotPasswordToken := none
        forgotPasswordExpiryDate := none }
      match save P env db user
          [Path.password, Path.forgotPasswordToken, Path.forgotPasswordExpiryDate] with
      | Except.error e => (Except.error e, db)
      | Except.ok (user, db1) =>
          let user := { user with password := none }
          (Except.ok { status := 200, cookies := [],
                       body := ApiResponse 200 (some user) "Password reset successfully." },
            db1)

/-- The controller `resetPassword`. -/
def resetPassword (P : Prims) (env : Env) (db : List User) (forgotToken : String)
    (password : Option String) : Response × List User :=
  asyncHandler (resetPasswordFn P env db forgotToken password)

/-! ## External collaborators and schema casts -/

/-- The response of `cloudinary.uploader.upload`: the property the handlers
read. -/
structure CloudinaryResponse where
  url : String
  deriving DecidableEq, Repr

/-- Libraries and services outside the sources, left uninterpreted, and the
configuration they are called with. -/
structure Ext where
  /-- The method `String.prototype.toLowerCase`. -/
  toLowerCase : String → String
  /-- The method `String.prototype.trim`. -/
  trim : String → String
  /-- The function `emailValidator.validate`. -/
  emailValid : String → Bool
  /-- The call `cloudinary.uploader.upload(path)`: its response or its error. -/
  upload : String → Except JsError CloudinaryResponse
  /-- The call `cloudinary.uploader.destroy(url)`. -/
  destroy : String → Except JsError Unit
  /-- The identifier that the driver gives to the next created document. -/
  newObjectId : ObjectId
  /-- The call `razorpay.orders.create({ amount, currency, receipt })`. -/
  ordersCreate : Int → String → String → Except JsError RazorpayOrder
  /-- The digest `crypto.createHmac(sha256, key).update(data).digest(hex)`. -/
  hmacSha256Hex : String → String → String
  /-- Whether the mail transport delivers a message (to, subject, html). -/
  mailDelivered : String → String → String → Bool
  RAZORPAY_KEY_SECRET : String
  CORS_ORIGIN : String

/-- The JavaScript test `!s` on an optional string of the request. -/
def falsy : Option String → Bool
  | none => true
  | some s => decide (s = "")

/-- The setters of a path declared `lowercase: true, trim: true` (`name`, `bio`,
`email`); they also run on the values of a query filter. -/
def castLowerTrim (X : Ext) (s : String) : String :=
  X.toLowerCase (X.trim s)

/-- The function `uploadOnCloudinary(localFilePath)`: the response of the
upload, or `null` when the path is missing or the upload throws. -/
def uploadOnCloudinary (X : Ext) (localFilePath : Option String) : Option CloudinaryResponse :=
  if falsy localFilePath then none
  else
    match X.upload (localFilePath.getD "") with
    | Except.ok response => some response
    | Except.error _ => none

/-- The function `removeFromCloudinary(ExistingFileUrl)`: whether
`cloudinary.uploader.destroy` was reached and returned. -/
def removeFromCloudinary (X : Ext) (existingFileUrl : Option String) : Option Unit :=
  if falsy existingFileUrl then none
  else
    match X.destroy (existingFileUrl.getD "") with
    | Except.ok response => some response
    | Except.error _ => none

/-- The schema validators that fail on a new user document, in schema order,
each as `path: message`. -/
def validateNewUser (name bio email mobile password : String) : List String :=
  (if jsLength name = 0 then ["name: Name is required."]
   else if jsLength name < 3 then ["name: Name must be at least 3 characters long."]
   else if jsLength name > 50 then ["name: Name should be less than 50 characters long."]
   else []) ++
  (if jsLength bio = 0 then ["bio: Bio is required."] else []) ++
  (if jsLength email = 0 then ["email: Email is required."] else []) ++
  (if jsLength mobile = 0 then ["mobile: Mobile number is required."] else []) ++
  (if jsLength password = 0 then ["password: Password is required."]
   else if jsLength password < 8 then
     ["password: Password must be at least 8 characters long."]
   else [])

/-- The error of the server on a write that breaks a unique index. -/
def duplicateKeyError : JsError :=
  { name := "MongoServerError", message := "E11000 duplicate key error",
    code := some 11000, statusCode := none }

/-- The call `User.create({ avatar, name, bio, email, mobile, password })`: the
setters of the schema, the validators, the pre-save hook on the new password,
the unique indexes on `email` and `mobile` (and `_id`), then the insert.  It
returns the created document and the collection. -/
def User.create (P : Prims) (X : Ext) (env : Env) (db : List User)
    (avatar name bio email mobile password : String) : Except JsError (User × List User) :=
  let doc : User :=
    { _id := X.newObjectId, avatar := some avatar, name := castLowerTrim X name,
      bio := castLowerTrim X bio, email := castLowerTrim X email, mobile := X.trim mobile,
      password := some password, orders := [], forgotPasswordToken := none,
      forgotPasswordExpiryDate := none, role := "USER" }
  match validateNewUser doc.name doc.bio doc.email doc.mobile password with
  | failure :: failures =>
      Except.error (libError "ValidationError"
        ("User validation failed: " ++ ", ".intercalate (failure :: failures)))
  | [] =>
      let doc := preSave P env [Path.password] doc
      if db.any (fun u => decide (u._id = doc._id) || decide (u.email = doc.email) ||
          decide (u.mobile = doc.mobile)) then
        Except.error duplicateKeyError
      else Except.ok (doc, db ++ [doc])

/-- The method `isPasswordCorrect(password)` of a user document:
`bcrypt.compare(password, this.password)`, which throws on a missing digest. -/
def User.isPasswordCorrect (P : Prims) (this : User) (password : String) :
    Except JsError Bool :=
  match this.password with
  | none => Except.error (libError "Error" "Illegal arguments: string, undefined")
  | some digest => Except.ok (P.bcryptCompare password digest)

/-- The error of reading `req.user.id` when `req.user` is undefined. -/
def noRequestUser : JsError :=
  libError "TypeError" "Cannot destructure property id of req.user as it is undefined."

/-! ## More controllers of the user profile -/

/-- The body of a `register` request. -/
structure RegisterBody where
  name : Option String
  bio : Option String
  email : Option String
  mobile : Option String
  password : Option String
  confirmPassword : Option String
  deriving DecidableEq, Repr

/-- The body of the controller `registerUser`; `file` is `req.file?.path`. -/
def registerUserFn (P : Prims) (X : Ext) (env : Env) (db : List User) (body : RegisterBody)
    (file : Option String) : Except JsError Response × List User :=
  if falsy body.name || falsy body.bio || falsy body.email || falsy body.mobile ||
      falsy body.password || falsy body.confirmPassword then
    (Except.error (ApiError 400 "All fields must be filled."), db)
  else
    let email := body.email.getD ""
    match findOne db (fun u => decide (u.email = castLowerTrim X email)) with
    | some _ => (Except.error (ApiError 400 "Email-ID is already exist."), db)
    | none =>
      if ¬ X.emailValid email then
        (Except.error (ApiError 400 "Email-ID must be in valid format."), db)
      else if body.password ≠ body.confirmPassword then
        (Except.error (ApiError 400 "Password & Confirm password should be matched."), db)
      else if falsy file then
        (Except.error (ApiError 400 "Avatar file is required."), db)
      else
        match uploadOnCloudinary X file with
        | none => (Except.error (ApiError 400 "Error uploading to Cloudinary."), db)
        | some avatar =>
          match User.create P X env db avatar.url (body.name.getD "") (body.bio.getD "")
              email (body.mobile.getD "") (body.password.getD "") with
          | Except.error e => (Except.error e, db)
          | Except.ok (user, db1) =>
            match (findById db1 (some user._id)).map User.selectMinusPassword with
            | none =>
                (Except.error
                  (ApiError 500 "Something went wrong while registering the user."), db1)
            | some createdUser =>
                (Except.ok { status := 201, cookies := [],
                             body := ApiResponse 201 (some createdUser)
                               "User successfully registered." }, db1)

/-- The controller `registerUser`. -/
def registerUser (P : Prims) (X : Ext) (env : Env) (db : List User) (body : RegisterBody)
    (file : Option String) : Response × List User :=
  asyncHandler (registerUserFn P X env db body file)

/-- The body of the controller `loginUser`. -/
def loginUserFn (P : Prims) (X : Ext) (env : Env) (db : List User)
    (email password : Option String) : Except JsError Response × List User :=
  if falsy email || falsy password then
    (Except.error (ApiError 400 "All fields must be filled."), db)
  else
    match db.find? (fun u => decide (u.email = castLowerTrim X (email.getD ""))) with
    | none => (Except.error (ApiError 404 "Invalid Email-ID or Password."), db)
    | some user =>
      match user.isPasswordCorrect P (password.getD "") with
      | Except.error e => (Except.error e, db)
      | Except.ok isPasswordValid =>
        if ¬ isPasswordValid then
          (Except.error (ApiError 401 "Invalid Email-ID or Password."), db)
        else
          let token := user.generateJWTToken P env
          let loggedInUser := (findById db (some user._id)).map User.selectMinusPassword
          (Except.ok { status := 200,
                       cookies := [{ name := "token", value := some token,
                                     maxAge := 12 * 60 * 60 * 1000, secure := true,
                                     httpOnly := true }],
                       body := ApiResponse 200 loggedInUser "User logged in successfully." },
            db)

/-- The controller `loginUser`. -/
def loginUser (P : Prims) (X : Ext) (env : Env) (db : List User)
    (email password : Option String) : Response × List User :=
  asyncHandler (loginUserFn P X env db email password)

/-- The body of the controller `logoutUser`. -/
def logoutUserFn (db : List User) (reqUser : Option User) :
    Except JsError Response × List User :=
  match reqUser with
  | none => (Except.error noRequestUser, db)
  | some ru =>
    match (findById db (some ru._id)).map User.selectMinusPassword with
    | none =>
        (Except.error
          (ApiError 404 "User is not logged in, Please log in or does not exist."), db)
    | some _ =>
        (Except.ok { status := 200,
                     cookies := [{ name := "token", value := none, maxAge := 0,
                                   secure := true, httpOnly := true }],
                     body := ApiResponseData 200 Data.empty "User logged out successfully." },
          db)

/-- The controller `logoutUser`. -/
def logoutUser (db : List User) (reqUser : Option User) : Response × List User :=
  asyncHandler (logoutUserFn db reqUser)

/-- The body of the controller `userDetails`. -/
def userDetailsFn (db : List User) (reqUser : Option User) :
    Except JsError Response × List User :=
  match reqUser with
  | none => (Except.error noRequestUser, db)
  | some ru =>
    match (findById db (some ru._id)).map User.selectMinusPassword with
    | none =>
        (Except.error
          (ApiError 404 "User is not logged in, Please log in or does not exist."), db)
    | some user =>
        (Except.ok { status := 200, cookies := [],
                     body := ApiResponse 200 (some user)
                       ("Hello " ++ user.name ++ ", This is your details.") }, db)

/-- The controller `userDetails`. -/
def userDetails (db : List User) (reqUser : Option User) : Response × List User :=
  asyncHandler (userDetailsFn db reqUser)

/-- Modelled from the spec: `sendEmail` of `utils/sendEmail.util.js`, which is
not part of the sources: an external email-sending collaborator that the core
treats as fire-and-forget with a success/failure result. -/
def sendEmail (X : Ext) (email subject message : String) : Bool :=
  X.mailDelivered email subject message

/-- The body of the controller `forgotPassword`. -/
def forgotPasswordFn (P : Prims) (X : Ext) (env : Env) (db : List User)
    (email : Option String) : Except JsError Response × List User :=
  if falsy email then
    (Except.error (ApiError 400 "Email address is required."), db)
  else
    let email := email.getD ""
    match findOne db (fun u => decide (u.email = castLowerTrim X email)) with
    | none =>
        (Except.error
          (ApiError 401 "The provided email address does not exist. Please register."), db)
    | some user =>
      let (resetToken, user) := user.generatePasswordResetToken P env
      match save P env db user [Path.forgotPasswordToken, Path.forgotPasswordExpiryDate] with
      | Except.error e => (Except.error e, db)
      | Except.ok (_, db1) =>
        let resetPasswordUrl := X.CORS_ORIGIN ++ "/reset-password/" ++ resetToken
        let subject := "Password Reset Request"
        let message :=
          "You have requested to reset your password. Please click the following link to reset your password: <a href=\"" ++
            resetPasswordUrl ++
            "\" target=\"_blank\">Reset Password</a>. If the link is not clickable, please copy and paste it into your browser."
        let _delivered := sendEmail X email subject message
        (Except.ok { status := 200, cookies := [],
                     body := ApiResponseData 200 Data.empty
                       ("A password reset link has been sent successfully to " ++ email ++
                         ". Please check your email inbox.") }, db1)

/-- The controller `forgotPassword`. -/
def forgotPassword (P : Prims) (X : Ext) (env : Env) (db : List User)
    (email : Option String) : Response × List User :=
  asyncHandler (forgotPasswordFn P X env db email)

/-- A call that reached the Cloudinary uploader. -/
inductive CloudinaryCall where
  | upload (path : String)
  | destroy (url : String)
  deriving DecidableEq, Repr

/-- The property `url` of the stored avatar: the path has schema type `String`,
and a string has no such property. -/
def avatarUrl (_avatar : Option String) : Option String :=
  none

/-- The update `User.findByIdAndUpdate(id, { $set: { avatar } }, { new: true })`. -/
def findByIdAndUpdateAvatar (db : List User) (id : ObjectId) (avatar : String) :
    Option User × List User :=
  let db1 := db.map (fun stored =>
    if stored._id = id then { stored with avatar := some avatar } else stored)
  (findById db1 (some id), db1)

/-- The body of the controller `updateUser`; `file` is `req.file?.path`.  The
state is the collection and the calls made to the Cloudinary uploader, in
order. -/
def updateUserFn (X : Ext) (db : List User) (reqUser : Option User)
    (name bio file : Option String) :
    Except JsError Response × (List User × List CloudinaryCall) :=
  match reqUser with
  | none => (Except.error noRequestUser, (db, []))
  | some ru =>
    let id := ru._id
    match (findById db (some id)).map User.selectMinusPassword with
    | none =>
        (Except.error (ApiError 404 "User is not logged in or does not exist."), (db, []))
    | some user =>
      let user := if ¬ falsy name then { user with name := castLowerTrim X (name.getD "") }
                  else user
      let user := if ¬ falsy bio then { user with bio := castLowerTrim X (bio.getD "") }
                  else user
      if ¬ falsy file then
        let removed : List CloudinaryCall :=
          if ¬ falsy user.avatar && ¬ falsy (avatarUrl user.avatar) then
            [CloudinaryCall.destroy ((avatarUrl user.avatar).getD "")]
          else []
        let calls := removed ++ [CloudinaryCall.upload (file.getD "")]
        match uploadOnCloudinary X file with
        | none =>
            (Except.error (ApiError 400 "Error uploading to Cloudinary."), (db, calls))
        | some avatar =>
            let (user, db1) := findByIdAndUpdateAvatar db id avatar.url
            (Except.ok { status := 200, cookies := [],
                         body := ApiResponse 200 (user.map User.selectMinusPassword)
                           "Avatar image updated successfully." }, (db1, calls))
      else
        let user := (findById db (some id)).map User.selectMinusPassword
        (Except.ok { status := 200, cookies := [],
                     body := ApiResponse 200 user "User details updated successfully." },
          (db, []))

/-- The controller `updateUser`. -/
def updateUser (X : Ext) (db : List User) (reqUser : Option User)
    (name bio file : Option String) : Response × (List User × List CloudinaryCall) :=
  asyncHandler (updateUserFn X db reqUser name bio file)

/-! ## Controllers of the payments -/

/-- The last `w` hexadecimal digits of `n`, most significant first. -/
def hexFixed : Nat → Nat → List Char
  | 0, _ => []
  | w + 1, n => hexFixed w (n / 16) ++ [hexDigit (n % 16)]

/-- The string `_id.toString()`: 24 hexadecimal digits. -/
def ObjectId.toString (id : ObjectId) : String :=
  String.mk (hexFixed 24 id)

/-- The receipt that `buyCourse` sends:
`Course_JS_Beginner_` followed by `user._id.toString().substring(0, 5)`. -/
def receiptOf (id : ObjectId) : String :=
  "Course_JS_Beginner_" ++ String.mk ((hexFixed 24 id).take 5)

/-- The body of the controller `buyCourse`, for an integer `amount`.  The state
is the collection of users and the orders created at Razorpay. -/
def buyCourseFn (P : Prims) (X : Ext) (env : Env) (db : List User)
    (gateway : List RazorpayOrder) (reqUser : Option User) (amount : Option Int) :
    Except JsError Response × (List User × List RazorpayOrder) :=
  match reqUser with
  | none => (Except.error noRequestUser, (db, gateway))
  | some ru =>
    match (findById db (some ru._id)).map User.selectMinusPassword with
    | none => (Except.error (ApiError 404 "User is not logged in, Please log in."),
        (db, gateway))
    | some user =>
      if user.role = "admin" then
        (Except.error (ApiError 400 "Admin user is not allowed to buy courses."),
          (db, gateway))
      else
        match amount with
        | none => (Except.error (ApiError 400 "Invalid amount provided."), (db, gateway))
        | some amount =>
          if amount ≤ 0 then
            (Except.error (ApiError 400 "Invalid amount provided."), (db, gateway))
          else
            match X.ordersCreate (amount * 100) "INR" (receiptOf user._id) with
            | Except.error e => (Except.error e, (db, gateway))
            | Except.ok order =>
              let newOrder : Order :=
                { order_id := some order.id, receipt_id := some order.receipt,
                  status := some order.status }
              let user := { user with orders := user.orders ++ [newOrder] }
              match save P env db user [Path.orders] with
              | Except.error e => (Except.error e, (db, gateway ++ [order]))
              | Except.ok (_, db1) =>
                  (Except.ok { status := 200, cookies := [],
                               body := ApiResponseData 200 (Data.order order)
                                 "Your order has been created." },
                    (db1, gateway ++ [order]))

/-- The controller `buyCourse`. -/
def buyCourse (P : Prims) (X : Ext) (env : Env) (db : List User)
    (gateway : List RazorpayOrder) (reqUser : Option User) (amount : Option Int) :
    Response × (List User × List RazorpayOrder) :=
  asyncHandler (buyCourseFn P X env db gateway reqUser amount)

/-- The body of a `verify-purchase` request. -/
structure VerifyBody where
  order_id : Option String
  payment_id : Option String
  signature : Option String
  amount : Option Int
  currency : Option String
  deriving DecidableEq, Repr

/-- A value inside a template literal: `undefined` prints as its name. -/
def templateString (s : Option String) : String :=
  s.getD "undefined"

/-- The `required` validators that fail on a new payment document, in schema
order, each as `path: message`. -/
def validateNewPayment (name email mobile : String) (body : VerifyBody) : List String :=
  (if jsLength name = 0 then ["name: Name is required."] else []) ++
  (if jsLength email = 0 then ["email: Email-ID is required."] else []) ++
  (if jsLength mobile = 0 then ["mobile: Mobile number is required."] else []) ++
  (if falsy body.order_id then ["order_id: Order-ID is required."] else []) ++
  (if falsy body.payment_id then ["payment_id: Payment-ID is required."] else []) ++
  (if falsy body.signature then ["signature: Signature is required."] else []) ++
  (if body.amount.isNone then ["amount: Amount is required."] else []) ++
  (if falsy body.currency then ["currency: Currency is required."] else [])

/-- The call `Payment.create({ ..., status: done })`. -/
def Payment.create (X : Ext) (payments : List Payment) (name email mobile : String)
    (body : VerifyBody) : Except JsError (Payment × List Payment) :=
  match validateNewPayment name email mobile body with
  | failure :: failures =>
      Except.error (libError "ValidationError"
        ("Payment validation failed: " ++ ", ".intercalate (failure :: failures)))
  | [] =>
      let doc : Payment :=
        { _id := X.newObjectId, name := name, email := email, mobile := mobile,
          order_id := body.order_id.getD "", payment_id := body.payment_id.getD "",
          signature := body.signature.getD "", amount := body.amount.getD 0,
          currency := body.currency.getD "", status := "done" }
      if payments.any (fun p => decide (p._id = doc._id)) then Except.error duplicateKeyError
      else Except.ok (doc, payments ++ [doc])

/-- The assignment `order.status = active` on the order that
`user.orders.find(order => order.order_id === order_id)` returned. -/
def activateFirst (order_id : Option String) : List Order → List Order
  | [] => []
  | o :: os =>
      if o.order_id = order_id then { o with status := some "active" } :: os
      else o :: activateFirst order_id os

/-- The body of the controller `verifyPurchase`.  The state is the collection
of users and the collection of payments. -/
def verifyPurchaseFn (P : Prims) (X : Ext) (env : Env) (db : List User)
    (payments : List Payment) (reqUser : Option User) (body : VerifyBody) :
    Except JsError Response × (List User × List Payment) :=
  match reqUser with
  | none => (Except.error noRequestUser, (db, payments))
  | some ru =>
    match (findById db (some ru._id)).map User.selectMinusPassword with
    | none => (Except.error (ApiError 404 "User is not logged in, Please log in."),
        (db, payments))
    | some user =>
      match user.orders.find? (fun order => decide (order.order_id = body.order_id)) with
      | none => (Except.error (ApiError 404 "Order does not exist."), (db, payments))
      | some order =>
        let orderId := order.order_id
        let generated_signature :=
          X.hmacSha256Hex X.RAZORPAY_KEY_SECRET
            (templateString orderId ++ "|" ++ templateString body.payment_id)
        if some generated_signature ≠ body.signature then
          (Except.error (ApiError 400 "Payment not verified, please try again."),
            (db, payments))
        else
          match Payment.create X payments user.name user.email user.mobile body with
          | Except.error e => (Except.error e, (db, payments))
          | Except.ok (payment, payments1) =>
            let user := { user with orders := activateFirst body.order_id user.orders }
            match save P env db user [Path.orders] with
            | Except.error e => (Except.error e, (db, payments1))
            | Except.ok (_, db1) =>
                (Except.ok { status := 200, cookies := [],
                             body := ApiResponseData 200 (Data.payment payment)
                               "Payment verified successfully." }, (db1, payments1))

/-- The controller `verifyPurchase`. -/
def verifyPurchase (P : Prims) (X : Ext) (env : Env) (db : List User)
    (payments : List Payment) (reqUser : Option User) (body : VerifyBody) :
    Response × (List User × List Payment) :=
  asyncHandler (verifyPurchaseFn P X env db payments reqUser body)

/-! ## The upload middleware -/

/-- The JavaScript test `s.startsWith(p)`. -/
def startsWith (s p : String) : Bool :=
  p.data.isPrefixOf s.data

/-- The function `fileFilter` on the MIME type of a file: `cb(null, true)` is
`true`, and `cb(new Error(..), false)` is the error. -/
def fileFilter (mimetype : String) : Except JsError Bool :=
  if startsWith mimetype "image/" || startsWith mimetype "video/" then Except.ok true
  else Except.error (libError "Error" "Invalid file type.")

/-- The option `limits` of multer. -/
structure MulterLimits where
  fileSize : Nat
  deriving DecidableEq, Repr

/-- The options that `multer` is configured with, besides the storage. -/
structure MulterOptions where
  fileFilter : String → Except JsError Bool
  limits : MulterLimits

/-- The middleware configuration `upload`. -/
def upload : MulterOptions :=
  { fileFilter := fileFilter, limits := { fileSize := 25 * 1024 * 1024 } }

/-! ## Controllers of the lectures -/

/-- The paths of a course document that the handlers assign. -/
inductive CoursePath where
  | lectures | numberOfLectures
  deriving DecidableEq, Repr

/-- The query `Course.findById(id)`. -/
def Course.findById (courses : List Course) (id : ObjectId) : Option Course :=
  courses.find? (fun c => c._id = id)

/-- The call `course.save()` on a document loaded from the collection: the
write of the modified paths (the schema has no hook, and the modified paths no
validator).  It returns the document and the collection. -/
def Course.save (courses : List Course) (this : Course) (modified : List CoursePath) :
    Course × List Course :=
  (this, courses.map (fun stored =>
    if stored._id = this._id then
      { stored with
        lectures := if modified.contains CoursePath.lectures then this.lectures
                    else stored.lectures
        numberOfLectures :=
          if modified.contains CoursePath.numberOfLectures then this.numberOfLectures
          else stored.numberOfLectures }
    else stored))

/-- The body of the controller `createLecture`; `file` is `req.file?.path`. -/
def createLectureFn (X : Ext) (courses : List Course) (id : ObjectId)
    (title description file : Option String) : Except JsError Response × List Course :=
  if falsy title || falsy description then
    (Except.error (ApiError 400 "All fields must be filled."), courses)
  else
    match Course.findById courses id with
    | none =>
        (Except.error (ApiError 400 "Invalid course ID or Course not found."), courses)
    | some course =>
      if falsy file then
        (Except.error (ApiError 400 "Lecture file is required."), courses)
      else
        match uploadOnCloudinary X file with
        | none => (Except.error (ApiError 400 "Error uploading to Cloudinary."), courses)
        | some lectureFile =>
          let newLecture : Lecture :=
            { _id := X.newObjectId, lecture := some lectureFile.url, title := title,
              description := description }
          let course := { course with lectures := course.lectures ++ [newLecture] }
          let course := { course with numberOfLectures := course.lectures.length }
          let (lectureData, courses1) :=
            Course.save courses course [CoursePath.lectures, CoursePath.numberOfLectures]
          (Except.ok { status := 201, cookies := [],
                       body := ApiResponseData 201 (Data.course lectureData)
                         "Lecture added successfully to the course." }, courses1)

/-- The controller `createLecture`. -/
def createLecture (X : Ext) (courses : List Course) (id : ObjectId)
    (title description file : Option String) : Response × List Course :=
  asyncHandler (createLectureFn X courses id title description file)

/-- The body of the controller `deleteAllLectures`. -/
def deleteAllLecturesFn (courses : List Course) (courseId : ObjectId) :
    Except JsError Response × List Course :=
  match Course.findById courses courseId with
  | none =>
      (Except.error
        (ApiError 404 "Couldn't find course with this ID. Please try again."), courses)
  | some course =>
      let course := { course with lectures := [] }
      let course := { course with numberOfLectures := course.lectures.length }
      let (course, courses1) :=
        Course.save courses course [CoursePath.lectures, CoursePath.numberOfLectures]
      (Except.ok { status := 200, cookies := [],
                   body := ApiResponseData 200 (Data.course course)
                     "All the lectures deleted successfully." }, courses1)

/-- The controller `deleteAllLectures`. -/
def deleteAllLectures (courses : List Course) (courseId : ObjectId) :
    Response × List Course :=
  asyncHandler (deleteAllLecturesFn courses courseId)

/-- The update
`Course.findOneAndUpdate({ lectures._id: lectureId }, { $pull: { lectures: { _id: lectureId } } }, { new: true })`:
the first course holding a lecture with the id loses its lectures with that
id; the updated course is returned. -/
def findOneAndPullLecture (lectureId : ObjectId) : List Course → Option Course × List Course
  | [] => (none, [])
  | c :: cs =>
      if c.lectures.any (fun l => decide (l._id = lectureId)) then
        let c1 := { c with lectures := c.lectures.filter (fun l => decide (l._id ≠ lectureId)) }
        (some c1, c1 :: cs)
      else
        let (found, cs1) := findOneAndPullLecture lectureId cs
        (found, c :: cs1)

/-- The body of the controller `deleteLecture`. -/
def deleteLectureFn (courses : List Course) (lectureId : ObjectId) :
    Except JsError Response × List Course :=
  match findOneAndPullLecture lectureId courses with
  | (none, courses1) =>
      (Except.error
        (ApiError 404 "Couldn't find lecture with this ID. Please try again."), courses1)
  | (some course, courses1) =>
      let course := { course with numberOfLectures := course.lectures.length }
      let (course, courses2) := Course.save courses1 course [CoursePath.numberOfLectures]
      (Except.ok { status := 200, cookies := [],
                   body := ApiResponseData 200 (Data.course course)
                     "Lecture deleted successfully." }, courses2)

/-- The controller `deleteLecture`. -/
def deleteLecture (courses : List Course) (lectureId : ObjectId) : Response × List Course :=
  asyncHandler (deleteLectureFn courses lectureId)

/-! ## Reachable collections -/

/-- The collections of users that `registerUser`, `forgotPassword`,
`resetPassword` and `changePassword` produce from the empty collection, on any
requests and in any environments. -/
inductive Reachable (P : Prims) : List User → Prop where
  | empty : Reachable P []
  | register {db : List User} (X : Ext) (env : Env) (body : RegisterBody)
      (file : Option String) :
      Reachable P db → Reachable P (registerUser P X env db body file).2
  | forgot {db : List User} (X : Ext) (env : Env) (email : Option String) :
      Reachable P db → Reachable P (forgotPassword P X env db email).2
  | reset {db : List User} (env : Env) (forgotToken : String) (password : Option String) :
      Reachable P db → Reachable P (resetPassword P env db forgotToken password).2
  | change {db : List User} (reqUser : Option User) (oldPassword newPassword : Option String) :
      Reachable P db → Reachable P (changePassword P db reqUser oldPassword newPassword).2

/-! ## Sample data for evaluating the handlers on concrete requests -/

/-- Stand-ins for the digests: each tags its input. -/
def samplePrims : Prims :=
  { hs256 := fun secret payload => secret ++ "/" ++ payload.email ++ "/" ++ payload.role
    sha256Hex := fun s => "sha256:" ++ s
    bcryptHash := fun plaintext _ _ => "bcrypt:" ++ plaintext
    bcryptCompare := fun plaintext digest => decide (digest = "bcrypt:" ++ plaintext) }

/-- A request environment at `Date.now() = 1700000000000` with a session
lifetime of one hour. -/
def sampleEnv : Env :=
  { JWT_SECRET := "s3cret", JWT_EXPIRY := 3600, now := 1700000000000,
    entropy := fun i => ⟨(7 * i + 3) % 256, Nat.mod_lt _ (by decide)⟩, salt := "salt" }

/-- The environment `sampleEnv` at another time. -/
def sampleEnvAt (t : Nat) : Env :=
  { sampleEnv with now := t }

/-- A stored user with role `USER` and a hashed password. -/
def alice : User :=
  { _id := 1, avatar := some "a.png", name := "alice", bio := "student",
    email := "alice@example.com", mobile := "5550001",
    password := some "bcrypt:old-password", orders := [],
    forgotPasswordToken := none, forgotPasswordExpiryDate := none, role := "USER" }

/-- A stored user with role `ADMIN`. -/
def root : User :=
  { _id := 2, avatar := none, name := "root", bio := "teacher",
    email := "root@example.com", mobile := "5550002",
    password := some "bcrypt:root-password", orders := [],
    forgotPasswordToken := none, forgotPasswordExpiryDate := none, role := "ADMIN" }

/-- A collection holding both users. -/
def sampleDb : List User := [alice, root]

/-- The raw reset token issued to `alice` in `sampleEnv`. -/
def sampleRawToken : String :=
  (alice.generatePasswordResetToken samplePrims sampleEnv).1

/-- The collection after a reset token was issued to `alice` in `sampleEnv`
and saved. -/
def pendingDb : List User :=
  [(alice.generatePasswordResetToken samplePrims sampleEnv).2, root]

/-- Stand-ins for the external collaborators: the mail transport fails, every
upload and every order succeeds. -/
def sampleExt : Ext :=
  { toLowerCase := fun s => String.mk (s.data.map Char.toLower)
    trim := fun s => String.mk (s.data.filter (fun c => c != ' '))
    emailValid := fun s => s.data.contains '@'
    upload := fun path => Except.ok { url := "https://cdn.example/" ++ path }
    destroy := fun _ => Except.ok ()
    newObjectId := 3
    ordersCreate := fun amount currency receipt =>
      Except.ok { id := "order_1", amount := amount, currency := currency,
                  receipt := receipt, status := "created" }
    hmacSha256Hex := fun key data => "hmac:" ++ key ++ ":" ++ data
    mailDelivered := fun _ _ _ => false
    RAZORPAY_KEY_SECRET := "rzp-secret"
    CORS_ORIGIN := "https://lms.example" }

/-- A complete `register` request of a new user. -/
def carolBody : RegisterBody :=
  { name := some "Carol", bio := some "Learner", email := some "carol@example.com",
    mobile := some "5550003", password := some "carol-password",
    confirmPassword := some "carol-password" }

/-- The password of the user document in the `data` of a response body, if the
body carries one. -/
def Body.dataPassword : Body → Option String
  | Body.api _ _ data _ => data.bind (fun u => u.password)
  | Body.apiData _ _ _ _ => none
  | Body.failure _ => none

/-- The collaborators of `sampleExt` with a gateway that numbers its next order
`order_2` and a driver whose next identifier is 4. -/
def sampleExtNext : Ext :=
  { sampleExt with
    newObjectId := 4
    ordersCreate := fun amount currency receipt =>
      Except.ok { id := "order_2", amount := amount, currency := currency,
                  receipt := receipt, status := "created" } }

/-- The collection of users after `alice` bought a course for 500. -/
def orderedDb : List User :=
  (buyCourse samplePrims sampleExt sampleEnv sampleDb [] (some alice) (some 500)).2.1

/-- A `verify-purchase` request for `order_1` with the right signature. -/
def paidBody : VerifyBody :=
  { order_id := some "order_1", payment_id := some "pay_1",
    signature := some "hmac:rzp-secret:order_1|pay_1", amount := some 500,
    currency := some "INR" }

/-- A collection with one course of two lectures. -/
def sampleCourses : List Course :=
  [{ _id := 10, course := some "thumb.png", title := "lean for beginners",
     description := "An introduction to theorem proving.", category := "logic",
     lectures := [{ _id := 11, lecture := some "l1.mp4", title := some "Terms",
                    description := some "first" },
                  { _id := 12, lecture := some "l2.mp4", title := some "Tactics",
                    description := some "second" }],
     numberOfLectures := 2, createdBy := "root" }]

/-! ## Theorems -/

/-- C1 (code evaluated at the failing inputs): whatever status code `s` an
`ApiError` carries, the response that `asyncHandler` sends for it has status
500, because the wrapper reads `error.code` and the class sets `statusCode`;
the body is the failure object with the message of the error. -/
theorem asyncHandler_apiError_status_500 {σ : Type} (s : Nat) (m : String) (st : σ) :
    asyncHandler (Except.error (ApiError s m), st)
      = ({ status := 500, cookies := [], body := Body.failure m }, st) := by
  simp [asyncHandler, ApiError, orDefault, validStatus]

/-- C4: a request with no `token` cookie, or an empty one, is answered by
`isLoggedIn` with status 401 and a failure body; `next` is not called and
`req.user` is left as it was. -/
theorem isLoggedIn_no_token (P : Prims) (env : Env) (db : List User) (req : Request)
    (h : req.token = none ∨ req.token = some (Token.text "")) :
    isLoggedIn P env db req
      = { response := some { status := 401, cookies := [],
                             body := Body.failure "Unauthorized access! Please login first." },
          user := req.user, nextCalls := 0 } := by
  rcases h with h | h <;> simp [isLoggedIn, h, Token.falsy, failureResponse]

/-- Witness of C4 on a request without cookie. -/
theorem isLoggedIn_no_token_witness :
    isLoggedIn samplePrims sampleEnv sampleDb { token := none, user := none }
      = { response := some { status := 401, cookies := [],
                             body := Body.failure "Unauthorized access! Please login first." },
          user := none, nextCalls := 0 } :=
  isLoggedIn_no_token samplePrims sampleEnv sampleDb { token := none, user := none }
    (Or.inl rfl)

/-- A token that is malformed, wrongly signed or expired makes `JWT.verify`
throw. -/
theorem JWT.verify_invalid (P : Prims) (token : Token) (secret : String) (now : Nat)
    (hinv : (∃ s, token = Token.text s) ∨
      (∃ p sig, token = Token.jws p sig ∧
        (P.hs256 secret p ≠ sig ∨ ∃ e, p.exp = some e ∧ e ≤ now / 1000))) :
    ∃ e, JWT.verify P token secret now = Except.error e := by
  rcases hinv with ⟨s, rfl⟩ | ⟨p, sig, rfl, hbad | ⟨e, he, hle⟩⟩
  · exact ⟨_, rfl⟩
  · exact ⟨libError "JsonWebTokenError" "invalid signature", by simp [JWT.verify, hbad]⟩
  · by_cases hsig : P.hs256 secret p = sig
    · exact ⟨libError "TokenExpiredError" "jwt expired", by
        simp [JWT.verify, hsig, he, hle]⟩
    · exact ⟨libError "JsonWebTokenError" "invalid signature", by simp [JWT.verify, hsig]⟩

/-- What `User.findById` finds is a stored document with the id asked for. -/
theorem findById_some {db : List User} {id : Option ObjectId} {u : User}
    (h : findById db id = some u) : u ∈ db ∧ some u._id = id := by
  cases id with
  | none => simp [findById] at h
  | some i =>
      simp only [findById] at h
      refine ⟨List.mem_of_find?_eq_some h, ?_⟩
      have := List.find?_some h
      simpa using this

/-- The query `User.findById` finds nothing exactly when no stored document has
the id. -/
theorem findById_eq_none {db : List User} {id : Option ObjectId} :
    findById db id = none ↔ ∀ u ∈ db, some u._id ≠ id := by
  cases id with
  | none => simp [findById]
  | some i => simp [findById, List.find?_eq_none]

/-- C3 (code evaluated at the failing inputs): for a non-empty `token` cookie
that is malformed, wrongly signed or expired, `isLoggedIn` does not call `next`
and sends a failure body, but with status 500 (the generic `catch`), not 401. -/
theorem isLoggedIn_invalid_token_status_500 (P : Prims) (env : Env) (db : List User)
    (req : Request) (token : Token) (htok : req.token = some token)
    (hfalsy : token.falsy = false)
    (hinv : (∃ s, token = Token.text s) ∨
      (∃ p sig, token = Token.jws p sig ∧
        (P.hs256 env.JWT_SECRET p ≠ sig ∨ ∃ e, p.exp = some e ∧ e ≤ env.now / 1000))) :
    ∃ message, isLoggedIn P env db req
      = { response := some { status := 500, cookies := [], body := Body.failure message },
          user := req.user, nextCalls := 0 } := by
  obtain ⟨e, he⟩ := JWT.verify_invalid P token env.JWT_SECRET env.now hinv
  exact ⟨e.message, by simp [isLoggedIn, htok, hfalsy, he, failureResponse]⟩

/-- Witness of C3: a token of `alice` whose signature is right and whose expiry
has passed. -/
theorem isLoggedIn_invalid_token_status_500_witness :
    ∃ message, isLoggedIn samplePrims sampleEnv sampleDb
        { token := some (Token.jws
            { id := some 1, email := "alice@example.com", role := "USER",
              iat := 1600000000, exp := some 1600003600 }
            "s3cret/alice@example.com/USER"), user := none }
      = { response := some { status := 500, cookies := [], body := Body.failure message },
          user := none, nextCalls := 0 } :=
  isLoggedIn_invalid_token_status_500 samplePrims sampleEnv sampleDb _ _ rfl rfl
    (Or.inr ⟨_, _, rfl, Or.inr ⟨1600003600, rfl, by decide⟩⟩)

/-- C5: for a rightly signed, unexpired token, `isLoggedIn` answers 401 without
calling `next` when no stored identity has the claimed id, and otherwise sets
`req.user` to the stored identity with that id, without its password, and calls
`next` exactly once. -/
theorem isLoggedIn_valid_token (P : Prims) (env : Env) (db : List User) (req : Request)
    (payload : Payload)
    (htok : req.token = some (Token.jws payload (P.hs256 env.JWT_SECRET payload)))
    (hexp : ∀ e, payload.exp = some e → env.now / 1000 < e) :
    ((∀ u ∈ db, some u._id ≠ payload.id) →
      isLoggedIn P env db req
        = { response := some { status := 401, cookies := [],
                               body := Body.failure "Invalid Access Token." },
            user := req.user, nextCalls := 0 }) ∧
    ((∃ u ∈ db, some u._id = payload.id) →
      ∃ u ∈ db, some u._id = payload.id ∧
        isLoggedIn P env db req
          = { response := none, user := some { u with password := none },
              nextCalls := 1 }) := by
  have hver : JWT.verify P (Token.jws payload (P.hs256 env.JWT_SECRET payload))
      env.JWT_SECRET env.now = Except.ok payload := by
    cases hp : payload.exp with
    | none => simp [JWT.verify, hp]
    | some e =>
        have := hexp e hp
        simp [JWT.verify, hp, this]
  constructor
  · intro hnone
    have hf : findById db payload.id = none := findById_eq_none.mpr hnone
    simp [isLoggedIn, htok, Token.falsy, hver, hf, failureResponse]
  · intro hex
    cases hf : findById db payload.id with
    | none =>
        obtain ⟨u, hu, hid⟩ := hex
        exact absurd hid (findById_eq_none.mp hf u hu)
    | some u =>
        obtain ⟨hu, hid⟩ := findById_some hf
        exact ⟨u, hu, hid, by
          simp [isLoggedIn, htok, Token.falsy, hver, hf, User.selectMinusPassword]⟩

/-- Witness of C5: a fresh token of `alice` against the sample collection. -/
theorem isLoggedIn_valid_token_witness :
    ∃ u ∈ sampleDb, some u._id = some 1 ∧
      isLoggedIn samplePrims sampleEnv sampleDb
          { token := some (Token.jws
              { id := some 1, email := "alice@example.com", role := "USER",
                iat := 1700000000, exp := some 1700003600 }
              "s3cret/alice@example.com/USER"), user := none }
        = { response := none, user := some { u with password := none }, nextCalls := 1 } :=
  (isLoggedIn_valid_token samplePrims sampleEnv sampleDb
      { token := some (Token.jws
          { id := some 1, email := "alice@example.com", role := "USER",
            iat := 1700000000, exp := some 1700003600 }
          "s3cret/alice@example.com/USER"), user := none }
      { id := some 1, email := "alice@example.com", role := "USER",
        iat := 1700000000, exp := some 1700003600 }
      rfl (by intro e he; cases he; decide)).2
    ⟨alice, by simp [sampleDb], rfl⟩

/-- C6: with `req.user` resolved, `authorizeRoles(...roles)` calls `next` (once,
sending nothing) exactly when the role of the user is a member of `roles`, and
otherwise answers 403 with a failure body without calling `next`; so on an
`authorizeRoles("ADMIN")` route a `USER` is rejected and an `ADMIN` passes. -/
theorem authorizeRoles_iff (roles : List String) (req : Request) (u : User)
    (hu : req.user = some u) :
    ((authorizeRoles roles req).nextCalls = 1 ↔ u.role ∈ roles) ∧
    (u.role ∈ roles →
      authorizeRoles roles req = { response := none, user := req.user, nextCalls := 1 }) ∧
    (u.role ∉ roles →
      authorizeRoles roles req
        = { response := some { status := 403, cookies := [],
                               body := Body.failure
                                 "You do not have permission to view this route." },
            user := req.user, nextCalls := 0 }) ∧
    (u.role = "USER" → (authorizeRoles ["ADMIN"] req).nextCalls = 0 ∧
      ((authorizeRoles ["ADMIN"] req).response.map Response.status) = some 403) ∧
    (u.role = "ADMIN" → authorizeRoles ["ADMIN"] req
        = { response := none, user := req.user, nextCalls := 1 }) := by
  refine ⟨?_, ?_, ?_, ?_, ?_⟩
  · by_cases h : u.role ∈ roles <;> simp [authorizeRoles, hu, h]
  · intro h; simp [authorizeRoles, hu, h]
  · intro h; simp [authorizeRoles, hu, h, failureResponse]
  · intro h; simp [authorizeRoles, hu, h, failureResponse]
  · intro h; simp [authorizeRoles, hu, h]

/-- Witness of C6: `root` (an `ADMIN`) on an `authorizeRoles("ADMIN")` route. -/
theorem authorizeRoles_iff_witness :
    authorizeRoles ["ADMIN"] { token := none, user := some root }
      = { response := none, user := some root, nextCalls := 1 } :=
  (authorizeRoles_iff ["ADMIN"] { token := none, user := some root } root rfl).2.2.2.2 rfl

/-- C7: the token that `generateJWTToken` returns for an identity verifies,
under the same secret and while the clock of the token (whole seconds) is
before issuance plus lifetime, to claims with the id, email and role of the
identity; from the expiry on it is rejected. -/
theorem generateJWTToken_verify (P : Prims) (env : Env) (this : User) (later : Nat) :
    (later / 1000 < env.now / 1000 + env.JWT_EXPIRY →
      ∃ claims, JWT.verify P (this.generateJWTToken P env) env.JWT_SECRET later
          = Except.ok claims ∧
        claims.id = some this._id ∧ claims.email = this.email ∧ claims.role = this.role) ∧
    (env.now / 1000 + env.JWT_EXPIRY ≤ later / 1000 →
      ∃ e, JWT.verify P (this.generateJWTToken P env) env.JWT_SECRET later
          = Except.error e) := by
  constructor
  · intro h
    refine ⟨{ id := some this._id, email := this.email, role := this.role,
              iat := env.now / 1000, exp := some (env.now / 1000 + env.JWT_EXPIRY) },
      ?_, rfl, rfl, rfl⟩
    simp [User.generateJWTToken, JWT.sign, JWT.verify, Nat.not_le.mpr h]
  · intro h
    exact ⟨libError "TokenExpiredError" "jwt expired", by
      simp [User.generateJWTToken, JWT.sign, JWT.verify, h]⟩

/-- Witness of C7: the token of `alice`, verified one second after issuance. -/
theorem generateJWTToken_verify_witness :
    ∃ claims, JWT.verify samplePrims (alice.generateJWTToken samplePrims sampleEnv)
        sampleEnv.JWT_SECRET 1700000001000 = Except.ok claims ∧
      claims.id = some alice._id ∧ claims.email = alice.email ∧ claims.role = alice.role :=
  (generateJWTToken_verify samplePrims sampleEnv alice 1700000001000).1 (by decide)

/-! ### Decimal strings and their order -/

/-- The code point of a decimal digit. -/
theorem digit_toNat : ∀ d, d < 10 → (Char.ofNat (48 + d)).toNat = 48 + d := by
  decide

/-- Reading back the last `w` digits of `n`. -/
theorem foldl_digitsFixed (w : Nat) : ∀ n acc : Nat,
    (digitsFixed w n).foldl (fun acc c => 10 * acc + (c.toNat - 48)) acc
      = acc * 10 ^ w + n % 10 ^ w := by
  induction w with
  | zero => intro n acc; simp [digitsFixed, Nat.mod_one]
  | succ w ih =>
      intro n acc
      have hd := digit_toNat (n % 10) (Nat.mod_lt _ (by decide))
      simp only [digitsFixed, List.foldl_append, ih, List.foldl_cons, List.foldl_nil, hd]
      have h1 : n % 10 ^ (w + 1) = n % 10 + 10 * (n / 10 % 10 ^ w) := by
        rw [pow_succ, Nat.mul_comm, Nat.mod_mul]
      rw [h1, pow_succ]
      have h2 : 48 + n % 10 - 48 = n % 10 := by omega
      rw [h2]
      ring

/-- The string `digitsFixed w n` has `w` characters. -/
theorem digitsFixed_length (w n : Nat) : (digitsFixed w n).length = w := by
  induction w generalizing n with
  | zero => rfl
  | succ w ih => simp [digitsFixed, ih]

/-- Numbers below `10 ^ w` with the same `w` digits are equal. -/
theorem digitsFixed_inj (w a b : Nat) (ha : a < 10 ^ w) (hb : b < 10 ^ w)
    (h : digitsFixed w a = digitsFixed w b) : a = b := by
  have h1 := foldl_digitsFixed w a 0
  have h2 := foldl_digitsFixed w b 0
  rw [h] at h1
  rw [h1] at h2
  simpa [Nat.mod_eq_of_lt ha, Nat.mod_eq_of_lt hb] using h2

/-- The fuel of `numDigits` suffices: `n` has at most `numDigits n` digits. -/
theorem lt_pow_numDigitsAux (fuel : Nat) : ∀ n, n ≤ fuel → n < 10 ^ numDigitsAux fuel n := by
  induction fuel with
  | zero => intro n hn; simp [numDigitsAux]; omega
  | succ f ih =>
      intro n hn
      by_cases h10 : n < 10
      · simp [numDigitsAux, h10]
      · simp only [numDigitsAux, h10, if_false]
        have := ih (n / 10) (by omega)
        rw [pow_succ]
        omega

/-- Every number is below ten to the number of its digits. -/
theorem lt_pow_numDigits (n : Nat) : n < 10 ^ numDigits n :=
  lt_pow_numDigitsAux n n (Nat.le_refl n)

/-- The count `numDigitsAux` is at least one. -/
theorem numDigitsAux_pos (fuel n : Nat) : 1 ≤ numDigitsAux fuel n := by
  cases fuel with
  | zero => simp [numDigitsAux]
  | succ f => by_cases h : n < 10 <;> simp [numDigitsAux, h]

/-- The count `numDigits` is exact: a positive number has no leading zero. -/
theorem pow_numDigitsAux_le (fuel : Nat) : ∀ n, n ≤ fuel → 0 < n →
    10 ^ (numDigitsAux fuel n - 1) ≤ n := by
  induction fuel with
  | zero => intro n hn hpos; omega
  | succ f ih =>
      intro n hn hpos
      by_cases h10 : n < 10
      · simp [numDigitsAux, h10]; omega
      · simp only [numDigitsAux, h10, if_false, Nat.add_sub_cancel]
        have h1 := ih (n / 10) (by omega) (by omega)
        have h2 := numDigitsAux_pos f (n / 10)
        obtain ⟨k, hk⟩ : ∃ k, numDigitsAux f (n / 10) = k + 1 :=
          ⟨numDigitsAux f (n / 10) - 1, by omega⟩
        rw [hk] at h1 ⊢
        rw [Nat.add_sub_cancel] at h1
        rw [pow_succ]
        omega

/-- The decimal string of a number denotes that number. -/
theorem decimalValue_decimal (n : Nat) : decimalValue (decimal n) = n := by
  have := foldl_digitsFixed (numDigits n) n 0
  simpa [decimalValue, decimal, Nat.mod_eq_of_lt (lt_pow_numDigits n)] using this

/-- The order of two strings of equal length that differ in their last
character or before. -/
theorem lexLt_append_singleton : ∀ (p q : List Char) (x y : Char), p.length = q.length →
    (lexLt (p ++ [x]) (q ++ [y]) = true ↔
      lexLt p q = true ∨ (p = q ∧ x.toNat < y.toNat)) := by
  intro p
  induction p with
  | nil =>
      intro q x y hlen
      cases q with
      | nil => simp [lexLt]
      | cons b bs => simp at hlen
  | cons a as ih =>
      intro q x y hlen
      cases q with
      | nil => simp at hlen
      | cons b bs =>
          have hlen1 : as.length = bs.length := by simpa using hlen
          have hab : a.toNat = b.toNat ↔ a = b :=
            ⟨fun h => Char.ext (UInt32.ext (by simpa [Char.toNat] using h)),
             fun h => by rw [h]⟩
          have e : lexLt (a :: (as ++ [x])) (b :: (bs ++ [y]))
              = (decide (a.toNat < b.toNat) ||
                  (decide (a.toNat = b.toNat) && lexLt (as ++ [x]) (bs ++ [y]))) := rfl
          have e2 : lexLt (a :: as) (b :: bs)
              = (decide (a.toNat < b.toNat) ||
                  (decide (a.toNat = b.toNat) && lexLt as bs)) := rfl
          rw [List.cons_append, List.cons_append, e, e2]
          simp only [Bool.or_eq_true, Bool.and_eq_true,
            decide_eq_true_eq, ih bs x y hlen1, List.cons.injEq, hab]
          constructor
          · rintro (h | ⟨h1, h2 | ⟨h2, h3⟩⟩)
            · exact Or.inl (Or.inl h)
            · exact Or.inl (Or.inr ⟨h1, h2⟩)
            · exact Or.inr ⟨⟨h1, h2⟩, h3⟩
          · rintro ((h | ⟨h1, h2⟩) | ⟨⟨h1, h2⟩, h3⟩)
            · exact Or.inl h
            · exact Or.inr ⟨h1, Or.inl h2⟩
            · exact Or.inr ⟨h1, Or.inr ⟨h2, h3⟩⟩

/-- On numbers written with the same number of digits, the order of the
strings is the order of the numbers. -/
theorem lexLt_digitsFixed (w : Nat) : ∀ a b : Nat, a < 10 ^ w → b < 10 ^ w →
    (lexLt (digitsFixed w a) (digitsFixed w b) = true ↔ a < b) := by
  induction w with
  | zero =>
      intro a b ha hb
      simp at ha hb
      simp [digitsFixed, lexLt, ha, hb]
  | succ w ih =>
      intro a b ha hb
      rw [pow_succ] at ha hb
      have ha1 : a / 10 < 10 ^ w := by omega
      have hb1 : b / 10 < 10 ^ w := by omega
      have hda := digit_toNat (a % 10) (Nat.mod_lt _ (by decide))
      have hdb := digit_toNat (b % 10) (Nat.mod_lt _ (by decide))
      rw [digitsFixed, digitsFixed, lexLt_append_singleton _ _ _ _
        (by rw [digitsFixed_length, digitsFixed_length]), ih _ _ ha1 hb1, hda, hdb]
      constructor
      · rintro (h | ⟨h1, h2⟩)
        · omega
        · have := digitsFixed_inj w _ _ ha1 hb1 h1
          omega
      · intro h
        by_cases hq : a / 10 < b / 10
        · exact Or.inl hq
        · have heq : a / 10 = b / 10 := by omega
          exact Or.inr ⟨by rw [heq], by omega⟩

/-- The database order on the decimal strings of two timestamps with the same
number of digits is the order of the timestamps. -/
theorem lexLt_decimal (a b : Nat) (h : numDigits a = numDigits b) :
    (lexLt (decimal a).data (decimal b).data = true ↔ a < b) := by
  have hb := lt_pow_numDigits b
  have ha := lt_pow_numDigits a
  rw [h] at ha
  simp only [decimal]
  rw [h]
  exact lexLt_digitsFixed _ a b ha hb

/-! ### Credential lifecycle -/

/-- Hex encoding writes two characters per byte. -/
theorem hexChars_length (bytes : List (Fin 256)) :
    (hexChars bytes).length = 2 * bytes.length := by
  induction bytes with
  | nil => rfl
  | cons b bs ih => simp [hexChars, ih]; omega

/-- C8: `generatePasswordResetToken` at time `env.now` returns the hex encoding
(40 characters) of 20 bytes of the random source, stores the SHA-256 hex digest
of that raw token and nothing else of it, and stores as expiry the decimal
string of `env.now + 900000`. -/
theorem generatePasswordResetToken_spec (P : Prims) (env : Env) (this : User) :
    (randomBytes env 20).length = 20 ∧
    (this.generatePasswordResetToken P env).1 = toHex (randomBytes env 20) ∧
    (this.generatePasswordResetToken P env).1.length = 40 ∧
    (this.generatePasswordResetToken P env).2
      = { this with
          forgotPasswordToken :=
            some (P.sha256Hex (this.generatePasswordResetToken P env).1)
          forgotPasswordExpiryDate := some (decimal (env.now + 900000)) } ∧
    (this.generatePasswordResetToken P env).2.forgotPasswordExpiryDate.map decimalValue
      = some (env.now + 900000) := by
  have hlen : (randomBytes env 20).length = 20 := by simp [randomBytes]
  refine ⟨hlen, rfl, ?_, rfl, ?_⟩
  · simp [User.generatePasswordResetToken, toHex, String.length, hexChars_length, hlen]
  · simp [User.generatePasswordResetToken, decimalValue_decimal]

/-- The collection after `findByIdAndUpdate(id, { $set: { password } })`: every
document with that id holds the given value as its password. -/
theorem findByIdAndUpdatePassword_password (db : List User) (id : ObjectId) (pw : String) :
    ∀ u ∈ (findByIdAndUpdatePassword db id pw).2, u._id = id → u.password = some pw := by
  intro u hu hid
  simp only [findByIdAndUpdatePassword, List.mem_map] at hu
  obtain ⟨stored, _, rfl⟩ := hu
  by_cases h : stored._id = id
  · simp [h]
  · simp [h] at hid

/-- C2 (code evaluated at the failing inputs): after every successful
`changePassword`, the password stored for the user is the plaintext
`newPassword` itself: the write goes through `findByIdAndUpdate`, which runs
no save hook, so nothing is hashed. -/
theorem changePassword_stores_plaintext (P : Prims) (db : List User) (reqUser : User)
    (oldPassword newPassword : String) (r : Response) (db1 : List User)
    (h : changePasswordFn P db (some reqUser) (some oldPassword) (some newPassword)
      = (Except.ok r, db1)) :
    (∃ u ∈ db1, u._id = reqUser._id) ∧
    (∀ u ∈ db1, u._id = reqUser._id → u.password = some newPassword) := by
  unfold changePasswordFn at h
  simp only at h
  split at h
  · simp at h
  · split at h
    · simp at h
    · rename_i user hfind
      split at h
      · simp at h
      · split at h
        · simp at h
        · split at h
          · simp at h
          · simp only [Prod.mk.injEq] at h
            obtain ⟨_, rfl⟩ := h
            obtain ⟨hmem, hid⟩ := findById_some hfind
            constructor
            · refine ⟨_, List.mem_map.mpr ⟨user, hmem, rfl⟩, ?_⟩
              simp only [Option.some.injEq] at hid
              simp [hid]
            · exact findByIdAndUpdatePassword_password db reqUser._id newPassword

/-- Witness of C2: `alice` changes her password to `new-password`; the stored
value is that plaintext. -/
theorem changePassword_stores_plaintext_witness :
    (∃ u ∈ (changePassword samplePrims sampleDb (some alice) (some "old-password")
        (some "new-password")).2, u._id = alice._id) ∧
    (∀ u ∈ (changePassword samplePrims sampleDb (some alice) (some "old-password")
        (some "new-password")).2, u._id = alice._id → u.password = some "new-password") :=
  changePassword_stores_plaintext samplePrims sampleDb alice "old-password" "new-password"
    _ _ rfl

/-! ### Consuming a reset token -/

/-- The query `User.findOne` finds nothing exactly when no stored document
passes the filter. -/
theorem findOne_eq_none {db : List User} {f : User → Bool} :
    findOne db f = none ↔ ∀ u ∈ db, f u = false := by
  simp [findOne, List.find?_eq_none]

/-- What `User.findOne` finds is a stored document that passes the filter,
without its password. -/
theorem findOne_some {db : List User} {f : User → Bool} {u : User}
    (h : findOne db f = some u) :
    ∃ v ∈ db, f v = true ∧ u = v.selectMinusPassword := by
  cases hf : db.find? f with
  | none => simp [findOne, hf] at h
  | some v =>
      simp only [findOne, hf, Option.map_some', Option.some.injEq] at h
      exact ⟨v, List.mem_of_find?_eq_some hf, List.find?_some hf, h.symm⟩

/-- An error of the password validators carries no status code. -/
theorem validatePassword_error {pw : Option String} {e : JsError}
    (h : validatePassword pw = Except.error e) :
    e.statusCode = none ∧ e.code = none := by
  unfold validatePassword at h
  split at h
  · cases h; exact ⟨rfl, rfl⟩
  · split at h
    · cases h; exact ⟨rfl, rfl⟩
    · split at h
      · cases h; exact ⟨rfl, rfl⟩
      · cases h

/-- With no document matching the query, `resetPassword` throws the
invalid-or-expired error and writes nothing. -/
theorem resetPasswordFn_of_none (P : Prims) (env : Env) (db : List User) (r : String)
    (pw : Option String) (h : findOne db (resetQuery env (P.sha256Hex r)) = none) :
    resetPasswordFn P env db r pw
      = (Except.error (ApiError 401 "Invalid or expired token. Please try again."), db) := by
  simp [resetPasswordFn, h]

/-- With a matching document and a password that fails validation,
`resetPassword` throws the validation error and writes nothing. -/
theorem resetPasswordFn_of_invalid (P : Prims) (env : Env) (db : List User) (r : String)
    (pw : Option String) (user : User) (e : JsError)
    (h : findOne db (resetQuery env (P.sha256Hex r)) = some user)
    (hv : validatePassword pw = Except.error e) :
    resetPasswordFn P env db r pw = (Except.error e, db) := by
  simp [resetPasswordFn, h, save, hv]

/-- With a matching document and a valid password, `resetPassword` succeeds:
it stores the bcrypt digest (cost factor 10) of the password and unsets both
reset fields on the document with the id found. -/
theorem resetPasswordFn_of_valid (P : Prims) (env : Env) (db : List User) (r : String)
    (pw : Option String) (user : User)
    (h : findOne db (resetQuery env (P.sha256Hex r)) = some user)
    (hv : validatePassword pw = Except.ok ()) :
    resetPasswordFn P env db r pw
      = (Except.ok { status := 200, cookies := [],
                     body := ApiResponse 200
                       (some { user with password := none, forgotPasswordToken := none,
                                         forgotPasswordExpiryDate := none })
                       "Password reset successfully." },
         db.map (fun stored =>
           if stored._id = user._id then
             { stored with
               password := pw.map (fun p => P.bcryptHash p 10 env.salt)
               forgotPasswordToken := none
               forgotPasswordExpiryDate := none }
           else stored)) := by
  simp [resetPasswordFn, h, save, hv, preSave, writePaths]

/-- A failed `resetPassword` leaves the collection as it was, and the response
of the controller has status 200 exactly when the body returned. -/
theorem resetPassword_cases (P : Prims) (env : Env) (db : List User) (r : String)
    (pw : Option String) :
    (∃ e, e.code = none ∧ resetPasswordFn P env db r pw = (Except.error e, db) ∧
      (resetPassword P env db r pw).1.status = 500 ∧
      (resetPassword P env db r pw).2 = db ∧
      (findOne db (resetQuery env (P.sha256Hex r)) = none ∨
        validatePassword pw = Except.error e)) ∨
    (∃ resp db1, resetPasswordFn P env db r pw = (Except.ok resp, db1) ∧
      (resetPassword P env db r pw).1.status = 200 ∧
      (∃ user, findOne db (resetQuery env (P.sha256Hex r)) = some user) ∧
      validatePassword pw = Except.ok ()) := by
  cases hf : findOne db (resetQuery env (P.sha256Hex r)) with
  | none =>
      left
      have h := resetPasswordFn_of_none P env db r pw hf
      exact ⟨_, rfl, h, by simp [resetPassword, h, asyncHandler, ApiError, orDefault],
        by simp [resetPassword, h, asyncHandler], Or.inl rfl⟩
  | some user =>
      cases hv : validatePassword pw with
      | error e =>
          left
          have h := resetPasswordFn_of_invalid P env db r pw user e hf hv
          have hc := (validatePassword_error hv).2
          exact ⟨e, hc, h, by simp [resetPassword, h, asyncHandler, hc, orDefault],
            by simp [resetPassword, h, asyncHandler], Or.inr rfl⟩
      | ok u =>
          right
          have h := resetPasswordFn_of_valid P env db r pw user hf hv
          exact ⟨_, _, h, by simp [resetPassword, h, asyncHandler], ⟨user, rfl⟩, rfl⟩

/-- No document holding the digest of a raw token: `resetPassword` with that
token throws the invalid-or-expired error and writes nothing, at any time and
with any password. -/
theorem resetPasswordFn_unknown_token (P : Prims) (env : Env) (db : List User) (r : String)
    (pw : Option String)
    (h : ∀ u ∈ db, u.forgotPasswordToken ≠ some (P.sha256Hex r)) :
    resetPasswordFn P env db r pw
      = (Except.error (ApiError 401 "Invalid or expired token. Please try again."), db) := by
  apply resetPasswordFn_of_none
  rw [findOne_eq_none]
  intro u hu
  simp [resetQuery, h u hu]

/-- C9: after a successful `resetPassword` with raw token `r` (the digest of
`r` being held by one identity only), the document of that identity has neither
`forgotPasswordToken` nor `forgotPasswordExpiryDate`, no stored document holds
the digest of `r`, and a later `resetPassword` with `r`, at any time and with
any password, throws the invalid-or-expired error and leaves the collection,
hence every stored password, unchanged. -/
theorem resetPassword_single_use (P : Prims) (env : Env) (db : List User) (r : String)
    (pw : Option String)
    (hok : (resetPassword P env db r pw).1.status = 200)
    (hfresh : ∀ u ∈ db, ∀ v ∈ db, u.forgotPasswordToken = some (P.sha256Hex r) →
      v.forgotPasswordToken = some (P.sha256Hex r) → u._id = v._id) :
    (∃ u ∈ db, u.forgotPasswordToken = some (P.sha256Hex r) ∧
      (∃ v ∈ (resetPassword P env db r pw).2, v._id = u._id) ∧
      ∀ v ∈ (resetPassword P env db r pw).2, v._id = u._id →
        v.forgotPasswordToken = none ∧ v.forgotPasswordExpiryDate = none) ∧
    (∀ v ∈ (resetPassword P env db r pw).2,
      v.forgotPasswordToken ≠ some (P.sha256Hex r)) ∧
    (∀ (env2 : Env) (pw2 : Option String),
      resetPasswordFn P env2 (resetPassword P env db r pw).2 r pw2
        = (Except.error (ApiError 401 "Invalid or expired token. Please try again."),
           (resetPassword P env db r pw).2)) := by
  rcases resetPassword_cases P env db r pw with
    ⟨e, _, _, h500, _, _⟩ | ⟨resp, db1, _, _, ⟨user, hf⟩, hv⟩
  · rw [h500] at hok; exact absurd hok (by decide)
  · have hfn := resetPasswordFn_of_valid P env db r pw user hf hv
    have hdb : (resetPassword P env db r pw).2
        = db.map (fun stored =>
            if stored._id = user._id then
              { stored with
                password := pw.map (fun p => P.bcryptHash p 10 env.salt)
                forgotPasswordToken := none
                forgotPasswordExpiryDate := none }
            else stored) := by
      simp [resetPassword, hfn, asyncHandler]
    obtain ⟨v0, hv0, hq, huser⟩ := findOne_some hf
    have hid : user._id = v0._id := by rw [huser]; rfl
    have htok : v0.forgotPasswordToken = some (P.sha256Hex r) := by
      simp only [resetQuery, Bool.and_eq_true, decide_eq_true_eq] at hq
      exact hq.1
    have hclear : ∀ v ∈ (resetPassword P env db r pw).2,
        v.forgotPasswordToken ≠ some (P.sha256Hex r) := by
      intro v hv1
      rw [hdb, List.mem_map] at hv1
      obtain ⟨stored, hs, rfl⟩ := hv1
      by_cases hsid : stored._id = user._id
      · simp [hsid]
      · simp only [hsid, if_false]
        intro hst
        exact hsid ((hfresh stored hs v0 hv0 hst htok).trans hid.symm)
    refine ⟨⟨v0, hv0, htok, ?_, ?_⟩, hclear, ?_⟩
    · rw [hdb]
      exact ⟨_, List.mem_map.mpr ⟨v0, hv0, rfl⟩, by simp [hid]⟩
    · intro v hv1 hvid
      rw [hdb, List.mem_map] at hv1
      obtain ⟨stored, hs, rfl⟩ := hv1
      by_cases hsid : stored._id = user._id
      · simp [hsid]
      · simp only [hsid, if_false] at hvid
        exact absurd (hvid.trans hid.symm) hsid
    · intro env2 pw2
      exact resetPasswordFn_unknown_token P env2 _ r pw2 hclear

/-- Witness of C9: `alice` consumes the reset token issued to her, one minute
after issuance. -/
theorem resetPassword_single_use_witness :
    (∀ v ∈ (resetPassword samplePrims (sampleEnvAt 1700000060000) pendingDb sampleRawToken
        (some "new-password")).2,
      v.forgotPasswordToken ≠ some (samplePrims.sha256Hex sampleRawToken)) ∧
    (∀ (env2 : Env) (pw2 : Option String),
      resetPasswordFn samplePrims env2
          (resetPassword samplePrims (sampleEnvAt 1700000060000) pendingDb sampleRawToken
            (some "new-password")).2 sampleRawToken pw2
        = (Except.error (ApiError 401 "Invalid or expired token. Please try again."),
           (resetPassword samplePrims (sampleEnvAt 1700000060000) pendingDb sampleRawToken
            (some "new-password")).2)) :=
  (resetPassword_single_use samplePrims (sampleEnvAt 1700000060000) pendingDb sampleRawToken
    (some "new-password") rfl
    (by
      have hroot : root.forgotPasswordToken = none := rfl
      intro u hu v hv htu htv
      simp only [pendingDb, List.mem_cons, List.mem_singleton, List.mem_nil_iff,
        or_false] at hu hv
      rcases hu with rfl | rfl
      · rcases hv with rfl | rfl
        · rfl
        · rw [hroot] at htv; cases htv
      · rw [hroot] at htu; cases htu)).2

/-- The documents that match the query of `resetPassword`, when every stored
expiry is the decimal string of a timestamp with as many digits as the clock:
those holding the digest with an expiry strictly after the clock. -/
theorem resetQuery_iff (P : Prims) (env : Env) (r : String) (u : User)
    (hfmt : ∀ s, u.forgotPasswordExpiryDate = some s →
      ∃ e, s = decimal e ∧ numDigits e = numDigits env.now) :
    resetQuery env (P.sha256Hex r) u = true ↔
      (u.forgotPasswordToken = some (P.sha256Hex r) ∧
        ∃ e, u.forgotPasswordExpiryDate = some (decimal e) ∧ env.now < e) := by
  simp only [resetQuery, Bool.and_eq_true, decide_eq_true_eq]
  constructor
  · rintro ⟨ht, hgt⟩
    refine ⟨ht, ?_⟩
    cases hx : u.forgotPasswordExpiryDate with
    | none => simp [hx, mongoGt] at hgt
    | some s =>
        obtain ⟨e, rfl, hd⟩ := hfmt s hx
        rw [hx] at hgt
        exact ⟨e, rfl, (lexLt_decimal env.now e hd.symm).mp hgt⟩
  · rintro ⟨ht, e, hx, hlt⟩
    refine ⟨ht, ?_⟩
    obtain ⟨e1, he1, hd⟩ := hfmt _ hx
    have hee : e = e1 := by
      have := congrArg decimalValue he1
      simpa [decimalValue_decimal] using this
    subst hee
    rw [hx]
    exact (lexLt_decimal env.now e hd.symm).mpr hlt

/-- C10 (as amended): when every stored expiry is the decimal string of a
timestamp with as many digits as the clock, `resetPassword` accepts a raw token
(does not throw the invalid-or-expired error) exactly when some stored identity
holds the SHA-256 digest of the token with an expiry strictly after the clock;
the request succeeds exactly when, in addition, the new password passes the
schema validators; and whenever it does not succeed the collection is
unchanged. -/
theorem resetPassword_accepts_iff (P : Prims) (env : Env) (db : List User) (r : String)
    (pw : Option String)
    (hfmt : ∀ u ∈ db, ∀ s, u.forgotPasswordExpiryDate = some s →
      ∃ e, s = decimal e ∧ numDigits e = numDigits env.now) :
    ((resetPasswordFn P env db r pw).1
        ≠ Except.error (ApiError 401 "Invalid or expired token. Please try again.") ↔
      ∃ u ∈ db, u.forgotPasswordToken = some (P.sha256Hex r) ∧
        ∃ e, u.forgotPasswordExpiryDate = some (decimal e) ∧ env.now < e) ∧
    ((resetPassword P env db r pw).1.status = 200 ↔
      (∃ u ∈ db, u.forgotPasswordToken = some (P.sha256Hex r) ∧
        ∃ e, u.forgotPasswordExpiryDate = some (decimal e) ∧ env.now < e) ∧
      validatePassword pw = Except.ok ()) ∧
    ((resetPassword P env db r pw).1.status ≠ 200 → (resetPassword P env db r pw).2 = db) := by
  cases hf : findOne db (resetQuery env (P.sha256Hex r)) with
  | none =>
      have hfn := resetPasswordFn_of_none P env db r pw hf
      have hnone : ¬ ∃ u ∈ db, u.forgotPasswordToken = some (P.sha256Hex r) ∧
          ∃ e, u.forgotPasswordExpiryDate = some (decimal e) ∧ env.now < e := by
        rintro ⟨u, hu, hq⟩
        have h1 := (resetQuery_iff P env r u (hfmt u hu)).mpr hq
        rw [findOne_eq_none.mp hf u hu] at h1
        cases h1
      refine ⟨?_, ?_, ?_⟩
      · simp [hfn, hnone]
      · simp [resetPassword, hfn, asyncHandler, ApiError, orDefault, hnone]
      · intro _; simp [resetPassword, hfn, asyncHandler]
  | some user =>
      obtain ⟨v, hv, hq, _⟩ := findOne_some hf
      have hsome : ∃ u ∈ db, u.forgotPasswordToken = some (P.sha256Hex r) ∧
          ∃ e, u.forgotPasswordExpiryDate = some (decimal e) ∧ env.now < e :=
        ⟨v, hv, (resetQuery_iff P env r v (hfmt v hv)).mp hq⟩
      cases hval : validatePassword pw with
      | error e =>
          have hfn := resetPasswordFn_of_invalid P env db r pw user e hf hval
          have hc := validatePassword_error hval
          refine ⟨?_, ?_, ?_⟩
          · simp only [hfn, hsome, iff_true]
            intro heq
            have h2 : e.statusCode = (ApiError 401
                "Invalid or expired token. Please try again.").statusCode := by
              rw [Except.error.inj heq]
            rw [hc.1] at h2
            cases h2
          · simp [resetPassword, hfn, asyncHandler, hc.2, orDefault]
          · intro _; simp [resetPassword, hfn, asyncHandler]
      | ok u =>
          have hfn := resetPasswordFn_of_valid P env db r pw user hf hval
          refine ⟨?_, ?_, ?_⟩
          · simp [hfn, hsome]
          · simp [resetPassword, hfn, asyncHandler, hsome]
          · intro hne
            exact absurd (by simp [resetPassword, hfn, asyncHandler]) hne

/-- Witness of C10: the collection with the token issued to `alice`, one minute
after issuance. -/
theorem resetPassword_accepts_iff_witness :
    (resetPassword samplePrims (sampleEnvAt 1700000060000) pendingDb sampleRawToken
        (some "new-password")).1.status = 200 ↔
      (∃ u ∈ pendingDb, u.forgotPasswordToken = some (samplePrims.sha256Hex sampleRawToken) ∧
        ∃ e, u.forgotPasswordExpiryDate = some (decimal e) ∧
          (sampleEnvAt 1700000060000).now < e) ∧
      validatePassword (some "new-password") = Except.ok () :=
  (resetPassword_accepts_iff samplePrims (sampleEnvAt 1700000060000) pendingDb sampleRawToken
    (some "new-password")
    (by
      have hroot : root.forgotPasswordExpiryDate = none := rfl
      intro u hu s hs
      simp only [pendingDb, List.mem_cons, List.mem_singleton, List.mem_nil_iff,
        or_false] at hu
      rcases hu with rfl | rfl
      · exact ⟨1700000900000, Option.some.inj hs.symm, by decide⟩
      · rw [hroot] at hs; cases hs)).2.1

/-- C10 (the claim as stated fails): at the very millisecond of the stored
expiry, `alice` holds the digest of the raw token and `now <= expiry` holds,
yet `resetPassword` rejects the token. -/
theorem resetPassword_rejects_at_expiry :
    (∃ u ∈ pendingDb, u.forgotPasswordToken = some (samplePrims.sha256Hex sampleRawToken) ∧
      u.forgotPasswordExpiryDate.map decimalValue = some 1700000900000 ∧
      (sampleEnvAt 1700000900000).now ≤ 1700000900000) ∧
    resetPassword samplePrims (sampleEnvAt 1700000900000) pendingDb sampleRawToken
        (some "new-password")
      = ({ status := 500, cookies := [],
           body := Body.failure "Invalid or expired token. Please try again." }, pendingDb) :=
  ⟨⟨_, List.mem_cons_self _ _, rfl, rfl, Nat.le_refl _⟩, rfl⟩

/-! ### The collection after each credential operation -/

/-- The wrapper `asyncHandler` passes the state of the body through. -/
theorem asyncHandler_snd {σ : Type} (fn : Except JsError Response × σ) :
    (asyncHandler fn).2 = fn.2 := by
  rcases fn with ⟨_ | _, _⟩ <;> rfl

/-- The response of `asyncHandler` to a thrown error that carries no `code`. -/
theorem asyncHandler_error {σ : Type} (e : JsError) (st : σ) (h : e.code = none) :
    asyncHandler (Except.error e, st)
      = ({ status := 500, cookies := [], body := Body.failure e.message }, st) := by
  simp [asyncHandler, h, orDefault, validStatus]

/-- For the duplicate-key error (code 11000) the wrapper sets a status that the
server cannot send: no response leaves the server. -/
theorem asyncHandler_duplicateKey {σ : Type} (st : σ) :
    (asyncHandler (Except.error duplicateKeyError, st)).1.sent = false := by
  simp [asyncHandler, duplicateKeyError, orDefault, validStatus]

/-- A created user document is appended to the collection; it carries the
bcrypt digest (cost factor 10) of the password and no reset field. -/
theorem User.create_ok {P : Prims} {X : Ext} {env : Env} {db db1 : List User}
    {avatar name bio email mobile password : String} {user : User}
    (h : User.create P X env db avatar name bio email mobile password
      = Except.ok (user, db1)) :
    db1 = db ++ [user] ∧ user.forgotPasswordToken = none ∧
      user.forgotPasswordExpiryDate = none ∧
      user.password = some (P.bcryptHash password 10 env.salt) := by
  unfold User.create at h
  simp only at h
  split at h
  · cases h
  · split at h
    · cases h
    · simp only [Except.ok.injEq, Prod.mk.injEq] at h
      obtain ⟨rfl, rfl⟩ := h
      simp [preSave]

/-- The collection after `registerUser`: unchanged, or one document more, which
has no reset field. -/
theorem registerUser_db (P : Prims) (X : Ext) (env : Env) (db : List User)
    (body : RegisterBody) (file : Option String) :
    (registerUser P X env db body file).2 = db ∨
    ∃ doc, (registerUser P X env db body file).2 = db ++ [doc] ∧
      doc.forgotPasswordToken = none ∧ doc.forgotPasswordExpiryDate = none := by
  rw [registerUser, asyncHandler_snd]
  unfold registerUserFn
  split
  · exact Or.inl rfl
  · simp only
    split
    · exact Or.inl rfl
    · split
      · exact Or.inl rfl
      · split
        · exact Or.inl rfl
        · split
          · exact Or.inl rfl
          · split
            · exact Or.inl rfl
            · split
              · exact Or.inl rfl
              · rename_i user db1 hcreate
                obtain ⟨hdb, ht, hx, _⟩ := User.create_ok hcreate
                right
                refine ⟨user, ?_, ht, hx⟩
                split <;> exact hdb

/-- The collection after `changePassword`: unchanged, or with the password of
the documents of one id replaced; no other field changes. -/
theorem changePassword_db (P : Prims) (db : List User) (reqUser : Option User)
    (oldPassword newPassword : Option String) :
    (changePassword P db reqUser oldPassword newPassword).2 = db ∨
    ∃ id pw, (changePassword P db reqUser oldPassword newPassword).2
      = db.map (fun stored =>
          if stored._id = id then { stored with password := some pw } else stored) := by
  rw [changePassword, asyncHandler_snd]
  unfold changePasswordFn
  split
  · exact Or.inl rfl
  · split
    · simp only
      split
      · exact Or.inl rfl
      · split
        · exact Or.inl rfl
        · split
          · exact Or.inl rfl
          · split
            · exact Or.inl rfl
            · split
              · exact Or.inl rfl
              · exact Or.inr ⟨_, _, rfl⟩
    · exact Or.inl rfl

/-- The collection after `forgotPassword`: unchanged, or with both reset fields
of the documents of one id set. -/
theorem forgotPassword_db (P : Prims) (X : Ext) (env : Env) (db : List User)
    (email : Option String) :
    (forgotPassword P X env db email).2 = db ∨
    ∃ id token expiry, (forgotPassword P X env db email).2
      = db.map (fun stored =>
          if stored._id = id then
            { stored with forgotPasswordToken := some token
                          forgotPasswordExpiryDate := some expiry }
          else stored) := by
  rw [forgotPassword, asyncHandler_snd]
  unfold forgotPasswordFn
  split
  · exact Or.inl rfl
  · simp only
    split
    · exact Or.inl rfl
    · rename_i user _
      right
      exact ⟨user._id, P.sha256Hex (toHex (randomBytes env 20)),
        decimal (env.now + 15 * 60 * 1000), by
          simp [User.generatePasswordResetToken, save, preSave, writePaths]⟩

/-- The collection after `resetPassword`: unchanged, or with both reset fields
of the documents of one id unset and their password replaced. -/
theorem resetPassword_db (P : Prims) (env : Env) (db : List User) (r : String)
    (pw : Option String) :
    (resetPassword P env db r pw).2 = db ∨
    ∃ id digest, (resetPassword P env db r pw).2
      = db.map (fun stored =>
          if stored._id = id then
            { stored with password := digest
                          forgotPasswordToken := none
                          forgotPasswordExpiryDate := none }
          else stored) := by
  rw [resetPassword, asyncHandler_snd]
  cases hf : findOne db (resetQuery env (P.sha256Hex r)) with
  | none => left; rw [resetPasswordFn_of_none P env db r pw hf]
  | some user =>
      cases hv : validatePassword pw with
      | error e => left; rw [resetPasswordFn_of_invalid P env db r pw user e hf hv]
      | ok u =>
          right
          rw [resetPasswordFn_of_valid P env db r pw user hf hv]
          exact ⟨_, _, rfl⟩

/-- C11: in every collection reachable from the empty one through
`registerUser`, `forgotPassword`, `resetPassword` and `changePassword`, each
user has `forgotPasswordToken` and `forgotPasswordExpiryDate` either both
present or both absent. -/
theorem reachable_reset_fields_paired (P : Prims) (db : List User) (h : Reachable P db) :
    ∀ u ∈ db, u.forgotPasswordToken.isSome = u.forgotPasswordExpiryDate.isSome := by
  induction h with
  | empty => intro u hu; cases hu
  | @register db X env body file _ ih =>
      rcases registerUser_db P X env db body file with h | ⟨doc, h, ht, hx⟩
      · rw [h]; exact ih
      · rw [h]
        intro u hu
        rcases List.mem_append.mp hu with hu | hu
        · exact ih u hu
        · rw [List.mem_singleton.mp hu, ht, hx]
  | @forgot db X env email _ ih =>
      rcases forgotPassword_db P X env db email with h | ⟨id, token, expiry, h⟩
      · rw [h]; exact ih
      · rw [h]
        intro u hu
        obtain ⟨stored, hs, rfl⟩ := List.mem_map.mp hu
        by_cases hid : stored._id = id
        · simp [hid]
        · simp only [hid, if_false]; exact ih stored hs
  | @reset db env r pw _ ih =>
      rcases resetPassword_db P env db r pw with h | ⟨id, digest, h⟩
      · rw [h]; exact ih
      · rw [h]
        intro u hu
        obtain ⟨stored, hs, rfl⟩ := List.mem_map.mp hu
        by_cases hid : stored._id = id
        · simp [hid]
        · simp only [hid, if_false]; exact ih stored hs
  | @change db ru old new _ ih =>
      rcases changePassword_db P db ru old new with h | ⟨id, pw, h⟩
      · rw [h]; exact ih
      · rw [h]
        intro u hu
        obtain ⟨stored, hs, rfl⟩ := List.mem_map.mp hu
        by_cases hid : stored._id = id
        · simp only [hid, if_true]; exact ih stored hs
        · simp only [hid, if_false]; exact ih stored hs

/-- Witness of C11: `carol` registers, asks for a reset token and changes her
password; her stored document has both reset fields. -/
theorem reachable_reset_fields_paired_witness :
    ∃ u ∈ (changePassword samplePrims
        (forgotPassword samplePrims sampleExt sampleEnv
          (registerUser samplePrims sampleExt sampleEnv [] carolBody (some "/tmp/c.png")).2
          (some "carol@example.com")).2
        (some { alice with _id := 3 }) (some "carol-password") (some "other-password")).2,
      u._id = 3 ∧ u.forgotPasswordToken.isSome = true ∧
        u.forgotPasswordToken.isSome = u.forgotPasswordExpiryDate.isSome :=
  ⟨_, List.mem_cons_self _ _, rfl, rfl,
    reachable_reset_fields_paired samplePrims _
      (Reachable.change (some { alice with _id := 3 }) (some "carol-password")
        (some "other-password")
        (Reachable.forgot sampleExt sampleEnv (some "carol@example.com")
          (Reachable.register sampleExt sampleEnv carolBody (some "/tmp/c.png")
            Reachable.empty)))
      _ (List.mem_cons_self _ _)⟩

/-- The request `resetPassword` succeeds exactly when some stored document
passes the query and the new password passes the validators. -/
theorem resetPassword_status_iff (P : Prims) (env : Env) (db : List User) (r : String)
    (pw : Option String) :
    (resetPassword P env db r pw).1.status = 200 ↔
      (∃ u ∈ db, resetQuery env (P.sha256Hex r) u = true) ∧
        validatePassword pw = Except.ok () := by
  rcases resetPassword_cases P env db r pw with
    ⟨e, _, _, h500, _, hwhy⟩ | ⟨_, _, _, h200, ⟨user, hf⟩, hv⟩
  · rw [h500]
    constructor
    · intro h; exact absurd h (by decide)
    · rintro ⟨⟨u, hu, hq⟩, hv⟩
      rcases hwhy with hnone | herr
      · rw [findOne_eq_none.mp hnone u hu] at hq; cases hq
      · rw [hv] at herr; cases herr
  · obtain ⟨v, hv1, hq, _⟩ := findOne_some hf
    exact ⟨fun _ => ⟨⟨v, hv1, hq⟩, hv⟩, fun _ => h200⟩

/-- C12 (as amended): `changePassword` leaves the reset fields of every stored
user as they were, so a reset token issued before the change is consumed
afterwards exactly as it would have been without the change. -/
theorem changePassword_keeps_reset_token (P : Prims) (db : List User)
    (reqUser : Option User) (oldPassword newPassword : Option String) :
    (changePassword P db reqUser oldPassword newPassword).2.map
        (fun u => (u._id, u.forgotPasswordToken, u.forgotPasswordExpiryDate))
      = db.map (fun u => (u._id, u.forgotPasswordToken, u.forgotPasswordExpiryDate)) ∧
    ∀ (env : Env) (r : String) (pw : Option String),
      ((resetPassword P env
          (changePassword P db reqUser oldPassword newPassword).2 r pw).1.status = 200 ↔
        (resetPassword P env db r pw).1.status = 200) := by
  rcases changePassword_db P db reqUser oldPassword newPassword with h | ⟨id, p, h⟩
  · rw [h]; exact ⟨rfl, fun _ _ _ => Iff.rfl⟩
  · rw [h]
    constructor
    · rw [List.map_map]
      apply List.map_congr_left
      intro u _
      by_cases hid : u._id = id <;> simp [hid]
    · intro env r pw
      rw [resetPassword_status_iff, resetPassword_status_iff]
      have hq : ∀ u : User, resetQuery env (P.sha256Hex r)
          (if u._id = id then { u with password := some p } else u)
            = resetQuery env (P.sha256Hex r) u := by
        intro u
        by_cases hid : u._id = id <;> simp [hid, resetQuery]
      constructor
      · rintro ⟨⟨u, hu, hqu⟩, hv⟩
        obtain ⟨stored, hs, rfl⟩ := List.mem_map.mp hu
        rw [hq] at hqu
        exact ⟨⟨stored, hs, hqu⟩, hv⟩
      · rintro ⟨⟨u, hu, hqu⟩, hv⟩
        exact ⟨⟨_, List.mem_map.mpr ⟨u, hu, rfl⟩, by rw [hq]; exact hqu⟩, hv⟩

/-- C12 (the claim as stated fails): `alice` holds a pending reset token,
changes her password, and the token issued before the change still resets her
password afterwards. -/
theorem changePassword_reset_token_survives :
    (changePassword samplePrims pendingDb (some alice) (some "old-password")
        (some "new-password")).1.status = 200 ∧
    (resetPassword samplePrims (sampleEnvAt 1700000060000)
        (changePassword samplePrims pendingDb (some alice) (some "old-password")
          (some "new-password")).2
        sampleRawToken (some "third-password")).1.status = 200 ∧
    (∀ u ∈ (resetPassword samplePrims (sampleEnvAt 1700000060000)
        (changePassword samplePrims pendingDb (some alice) (some "old-password")
          (some "new-password")).2
        sampleRawToken (some "third-password")).2,
      u._id = alice._id → u.password = some "bcrypt:third-password") := by
  refine ⟨rfl, rfl, ?_⟩
  intro u hu hid
  have hdb : (resetPassword samplePrims (sampleEnvAt 1700000060000)
        (changePassword samplePrims pendingDb (some alice) (some "old-password")
          (some "new-password")).2
        sampleRawToken (some "third-password")).2
      = [{ alice with password := some "bcrypt:third-password" }, root] := rfl
  rw [hdb] at hu
  simp only [List.mem_cons, List.mem_singleton, List.mem_nil_iff, or_false] at hu
  rcases hu with rfl | rfl
  · rfl
  · exact absurd hid (by decide)

/-- The query `User.findOne` finds a document when a stored one passes the
filter. -/
theorem findOne_of_mem {db : List User} {f : User → Bool} {u : User} (hu : u ∈ db)
    (hf : f u = true) : ∃ v, findOne db f = some v := by
  cases h : findOne db f with
  | none => rw [findOne_eq_none.mp h u hu] at hf; cases hf
  | some v => exact ⟨v, rfl⟩

/-- C13 (as amended): a `registerUser` request whose email, as the schema
casts it, is the email of a stored identity writes nothing; when all six fields
are filled it fails with the duplicate-email error, `ApiError(400, "Email-ID is
already exist.")`, answered with that message in a failure body and no cookie;
when a field is missing it fails earlier, with "All fields must be filled.". -/
theorem registerUser_duplicate_email (P : Prims) (X : Ext) (env : Env) (db : List User)
    (body : RegisterBody) (file : Option String) (email : String) (u : User)
    (hemail : body.email = some email) (hu : u ∈ db)
    (hdup : u.email = castLowerTrim X email) :
    ((falsy body.name || falsy body.bio || falsy body.email || falsy body.mobile ||
        falsy body.password || falsy body.confirmPassword) = false →
      registerUserFn P X env db body file
        = (Except.error (ApiError 400 "Email-ID is already exist."), db) ∧
      (registerUser P X env db body file).1.body
        = Body.failure "Email-ID is already exist." ∧
      (registerUser P X env db body file).1.cookies = [] ∧
      (registerUser P X env db body file).1.sent = true ∧
      (registerUser P X env db body file).2 = db) ∧
    ((falsy body.name || falsy body.bio || falsy body.email || falsy body.mobile ||
        falsy body.password || falsy body.confirmPassword) = true →
      registerUserFn P X env db body file
        = (Except.error (ApiError 400 "All fields must be filled."), db) ∧
      (registerUser P X env db body file).1.body
        = Body.failure "All fields must be filled." ∧
      (registerUser P X env db body file).2 = db) := by
  obtain ⟨v, hv⟩ := findOne_of_mem (f := fun w => decide (w.email = castLowerTrim X email))
    hu (by simp [hdup])
  constructor
  · intro hfilled
    have hfn : registerUserFn P X env db body file
        = (Except.error (ApiError 400 "Email-ID is already exist."), db) := by
      unfold registerUserFn
      rw [hfilled]
      simp [hemail, hv]
    refine ⟨hfn, ?_, ?_, ?_, ?_⟩
    · rw [registerUser, hfn, asyncHandler_error _ _ rfl]; rfl
    · rw [registerUser, hfn, asyncHandler_error _ _ rfl]
    · rw [registerUser, hfn, asyncHandler_error _ _ rfl]
    · rw [registerUser, asyncHandler_snd, hfn]
  · intro hblank
    have hfn : registerUserFn P X env db body file
        = (Except.error (ApiError 400 "All fields must be filled."), db) := by
      unfold registerUserFn; rw [hblank]; simp
    refine ⟨hfn, ?_, ?_⟩
    · rw [registerUser, hfn, asyncHandler_error _ _ rfl]; rfl
    · rw [registerUser, asyncHandler_snd, hfn]

/-- Witness of C13: a complete request with the email of `alice`. -/
theorem registerUser_duplicate_email_witness :
    registerUserFn samplePrims sampleExt sampleEnv sampleDb
        { carolBody with email := some "alice@example.com" } (some "/tmp/c.png")
      = (Except.error (ApiError 400 "Email-ID is already exist."), sampleDb) ∧
    (registerUser samplePrims sampleExt sampleEnv sampleDb
        { carolBody with email := some "alice@example.com" } (some "/tmp/c.png")).1.body
      = Body.failure "Email-ID is already exist." ∧
    (registerUser samplePrims sampleExt sampleEnv sampleDb
        { carolBody with email := some "alice@example.com" } (some "/tmp/c.png")).1.cookies
      = [] ∧
    (registerUser samplePrims sampleExt sampleEnv sampleDb
        { carolBody with email := some "alice@example.com" } (some "/tmp/c.png")).1.sent
      = true ∧
    (registerUser samplePrims sampleExt sampleEnv sampleDb
        { carolBody with email := some "alice@example.com" } (some "/tmp/c.png")).2
      = sampleDb :=
  (registerUser_duplicate_email samplePrims sampleExt sampleEnv sampleDb
    { carolBody with email := some "alice@example.com" } (some "/tmp/c.png")
    "alice@example.com" alice rfl (by simp [sampleDb]) rfl).1 rfl

/-- C13 (the claim as stated fails): a `registerUser` request with the email of
`alice` and no `bio` does not fail with the duplicate-email error: the error
thrown is the one of the missing field. -/
theorem registerUser_duplicate_email_incomplete :
    (∃ u ∈ sampleDb, u.email = castLowerTrim sampleExt "alice@example.com") ∧
    registerUserFn samplePrims sampleExt sampleEnv sampleDb
        { carolBody with email := some "alice@example.com", bio := none }
        (some "/tmp/c.png")
      = (Except.error (ApiError 400 "All fields must be filled."), sampleDb) ∧
    (registerUser samplePrims sampleExt sampleEnv sampleDb
        { carolBody with email := some "alice@example.com", bio := none }
        (some "/tmp/c.png")).1.body ≠ Body.failure "Email-ID is already exist." :=
  ⟨⟨alice, List.mem_cons_self _ _, rfl⟩, rfl, by decide⟩

/-! ### Login, logout and the reset request -/

/-- C14 (code evaluated at the failing inputs): a `loginUser` request with the
email of a stored identity and a password for which `isPasswordCorrect` returns
false throws `ApiError(401, ..)`, sets no cookie and leaves the collection
unchanged, but the response that `asyncHandler` sends for it has status 500,
not 401. -/
theorem loginUser_wrong_password_status_500 (P : Prims) (X : Ext) (env : Env)
    (db : List User) (email password : String) (user : User)
    (hemail : email ≠ "") (hpassword : password ≠ "")
    (hfind : db.find? (fun u => decide (u.email = castLowerTrim X email)) = some user)
    (hwrong : user.isPasswordCorrect P password = Except.ok false) :
    loginUserFn P X env db (some email) (some password)
      = (Except.error (ApiError 401 "Invalid Email-ID or Password."), db) ∧
    loginUser P X env db (some email) (some password)
      = ({ status := 500, cookies := [],
           body := Body.failure "Invalid Email-ID or Password." }, db) := by
  have hfn : loginUserFn P X env db (some email) (some password)
      = (Except.error (ApiError 401 "Invalid Email-ID or Password."), db) := by
    unfold loginUserFn
    simp [falsy, hemail, hpassword, hfind, hwrong]
  refine ⟨hfn, ?_⟩
  rw [loginUser, hfn, asyncHandler_error _ _ rfl]
  rfl

/-- Witness of C14: `alice` logs in with a wrong password. -/
theorem loginUser_wrong_password_status_500_witness :
    loginUser samplePrims sampleExt sampleEnv sampleDb (some "alice@example.com")
        (some "wrong-password")
      = ({ status := 500, cookies := [],
           body := Body.failure "Invalid Email-ID or Password." }, sampleDb) :=
  (loginUser_wrong_password_status_500 samplePrims sampleExt sampleEnv sampleDb
    "alice@example.com" "wrong-password" alice (by decide) (by decide) rfl rfl).2

/-- C15: a `changePassword` request whose `newPassword` verifies against the
stored password digest of the user is rejected with an error and writes
nothing; when both passwords are non-empty and the old one is right, the error
thrown is `ApiError(400, "New password should not match the old password.")`. -/
theorem changePassword_same_password_rejected (P : Prims) (db : List User)
    (reqUser user : User) (oldPassword : Option String) (newPassword digest : String)
    (hfind : findById db (some reqUser._id) = some user)
    (hdigest : user.password = some digest)
    (hsame : P.bcryptCompare newPassword digest = true) :
    (∃ e, changePasswordFn P db (some reqUser) oldPassword (some newPassword)
        = (Except.error e, db) ∧
      (∀ old, oldPassword = some old → old ≠ "" → newPassword ≠ "" →
        P.bcryptCompare old digest = true →
        e = ApiError 400 "New password should not match the old password.")) ∧
    (changePassword P db (some reqUser) oldPassword (some newPassword)).2 = db ∧
    ∃ message, (changePassword P db (some reqUser) oldPassword (some newPassword)).1.body
      = Body.failure message := by
  have key : ∃ e, changePasswordFn P db (some reqUser) oldPassword (some newPassword)
        = (Except.error e, db) ∧ e.code = none ∧
      (∀ old, oldPassword = some old → old ≠ "" → newPassword ≠ "" →
        P.bcryptCompare old digest = true →
        e = ApiError 400 "New password should not match the old password.") := by
    cases oldPassword with
    | none =>
        exact ⟨ApiError 400 "Both old and new passwords must be provided.",
          by simp [changePasswordFn], rfl, fun old h => by cases h⟩
    | some old =>
        by_cases hblank : (old.isEmpty || newPassword.isEmpty) = true
        · refine ⟨ApiError 400 "Both old and new passwords must be provided.", ?_, rfl, ?_⟩
          · unfold changePasswordFn; simp only; rw [if_pos hblank]
          · intro o ho hne1 hne2 _
            cases ho
            rw [Bool.or_eq_true] at hblank
            rcases hblank with h | h
            · exact absurd ((String.isEmpty_iff _).mp h) hne1
            · exact absurd ((String.isEmpty_iff _).mp h) hne2
        · by_cases hold : P.bcryptCompare old digest = true
          · refine ⟨ApiError 400 "New password should not match the old password.",
              ?_, rfl, fun _ _ _ _ _ => rfl⟩
            unfold changePasswordFn
            simp only
            rw [if_neg hblank]
            simp [hfind, hdigest, hold, hsame]
          · refine ⟨ApiError 401 "Invalid old password.", ?_, rfl, ?_⟩
            · unfold changePasswordFn
              simp only
              rw [if_neg hblank]
              simp [hfind, hdigest, hold]
            · intro o ho _ _ hok
              cases ho
              exact absurd hok hold
  obtain ⟨e, hfn, hcode, hwhich⟩ := key
  refine ⟨⟨e, hfn, hwhich⟩, ?_, ?_⟩
  · rw [changePassword, asyncHandler_snd, hfn]
  · exact ⟨e.message, by rw [changePassword, hfn, asyncHandler_error _ _ hcode]⟩

/-- Witness of C15: `alice` asks to change her password to the one she has. -/
theorem changePassword_same_password_rejected_witness :
    (changePassword samplePrims sampleDb (some alice) (some "old-password")
        (some "old-password")).2 = sampleDb ∧
    ∃ message, (changePassword samplePrims sampleDb (some alice) (some "old-password")
        (some "old-password")).1.body = Body.failure message :=
  (changePassword_same_password_rejected samplePrims sampleDb alice alice
    (some "old-password") "old-password" "bcrypt:old-password" rfl rfl rfl).2

/-- C16: a successful `loginUser` sets exactly one cookie, named `token`,
carrying the session token just issued to the user found, with `httpOnly`,
`secure` and `maxAge` 43200000 ms (12 hours); a successful `logoutUser` sets
the cookie `token` with `httpOnly`, `secure` and `maxAge` 0.  Both succeed:
`loginUser` when the user is found and the password verifies, `logoutUser`
when the user of the request is stored. -/
theorem session_cookie_policy (P : Prims) (X : Ext) (env : Env) (db : List User)
    (email password : Option String) (reqUser : Option User) :
    ((loginUser P X env db email password).1.status = 200 →
      ∃ user ∈ db, user.email = castLowerTrim X (email.getD "") ∧
        (loginUser P X env db email password).1.cookies
          = [{ name := "token", value := some (user.generateJWTToken P env),
               maxAge := 43200000, secure := true, httpOnly := true }]) ∧
    ((logoutUser db reqUser).1.status = 200 →
      (logoutUser db reqUser).1.cookies
        = [{ name := "token", value := none, maxAge := 0, secure := true,
             httpOnly := true }]) ∧
    (∀ (e pw digest : String) (user : User), email = some e → e ≠ "" →
      password = some pw → pw ≠ "" →
      db.find? (fun u => decide (u.email = castLowerTrim X e)) = some user →
      user.password = some digest → P.bcryptCompare pw digest = true →
      (loginUser P X env db email password).1.status = 200) ∧
    (∀ ru user : User, reqUser = some ru → findById db (some ru._id) = some user →
      (logoutUser db reqUser).1.status = 200) := by
  refine ⟨?_, ?_, ?_, ?_⟩
  · intro hok
    cases hblank : (falsy email || falsy password) with
    | true =>
        have : loginUserFn P X env db email password
            = (Except.error (ApiError 400 "All fields must be filled."), db) := by
          unfold loginUserFn; rw [hblank]; simp
        rw [loginUser, this, asyncHandler_error _ _ rfl] at hok
        exact absurd hok (by simp)
    | false =>
        cases hfind : db.find? (fun u => decide (u.email = castLowerTrim X (email.getD "")))
          with
        | none =>
            have : loginUserFn P X env db email password
                = (Except.error (ApiError 404 "Invalid Email-ID or Password."), db) := by
              unfold loginUserFn; rw [hblank]; simp [hfind]
            rw [loginUser, this, asyncHandler_error _ _ rfl] at hok
            exact absurd hok (by simp)
        | some user =>
            have hmem : user ∈ db := List.mem_of_find?_eq_some hfind
            have hmail : user.email = castLowerTrim X (email.getD "") := by
              simpa using List.find?_some hfind
            cases hdigest : user.password with
            | none =>
                have : loginUserFn P X env db email password
                    = (Except.error
                        (libError "Error" "Illegal arguments: string, undefined"), db) := by
                  unfold loginUserFn; rw [hblank]
                  simp [hfind, User.isPasswordCorrect, hdigest]
                rw [loginUser, this, asyncHandler_error _ _ rfl] at hok
                exact absurd hok (by simp)
            | some digest =>
                cases hcmp : P.bcryptCompare (password.getD "") digest with
                | false =>
                    have : loginUserFn P X env db email password
                        = (Except.error (ApiError 401 "Invalid Email-ID or Password."),
                            db) := by
                      unfold loginUserFn; rw [hblank]
                      simp [hfind, User.isPasswordCorrect, hdigest, hcmp]
                    rw [loginUser, this, asyncHandler_error _ _ rfl] at hok
                    exact absurd hok (by simp)
                | true =>
                    refine ⟨user, hmem, hmail, ?_⟩
                    unfold loginUser loginUserFn
                    rw [hblank]
                    simp [hfind, User.isPasswordCorrect, hdigest, hcmp, asyncHandler]
  · intro hok
    cases reqUser with
    | none =>
        rw [logoutUser, logoutUserFn, asyncHandler_error _ _ rfl] at hok
        exact absurd hok (by simp)
    | some ru =>
        cases hfind : findById db (some ru._id) with
        | none =>
            have : logoutUserFn db (some ru)
                = (Except.error (ApiError 404
                    "User is not logged in, Please log in or does not exist."), db) := by
              simp [logoutUserFn, hfind]
            rw [logoutUser, this, asyncHandler_error _ _ rfl] at hok
            exact absurd hok (by simp)
        | some user => simp [logoutUser, logoutUserFn, hfind, asyncHandler]
  · intro e pw digest user he hne hp hpne hfind hdigest hcmp
    subst he hp
    unfold loginUser loginUserFn
    simp [falsy, hne, hpne, hfind, User.isPasswordCorrect, hdigest, hcmp, asyncHandler]
  · intro ru user hr hfind
    subst hr
    simp [logoutUser, logoutUserFn, hfind, asyncHandler]

/-- Witness of C16: `alice` logs in with her password, then logs out. -/
theorem session_cookie_policy_witness :
    (∃ user ∈ sampleDb,
      user.email = sampleExt.toLowerCase (sampleExt.trim "alice@example.com") ∧
      (loginUser samplePrims sampleExt sampleEnv sampleDb (some "alice@example.com")
          (some "old-password")).1.cookies
        = [{ name := "token", value := some (user.generateJWTToken samplePrims sampleEnv),
             maxAge := 43200000, secure := true, httpOnly := true }]) ∧
    (logoutUser sampleDb (some alice)).1.status = 200 ∧
    (logoutUser sampleDb (some alice)).1.cookies
      = [{ name := "token", value := none, maxAge := 0, secure := true,
           httpOnly := true }] :=
  ⟨(session_cookie_policy samplePrims sampleExt sampleEnv sampleDb
      (some "alice@example.com") (some "old-password") (some alice)).1
      ((session_cookie_policy samplePrims sampleExt sampleEnv sampleDb
        (some "alice@example.com") (some "old-password") (some alice)).2.2.1
        "alice@example.com" "old-password" "bcrypt:old-password" alice rfl (by decide) rfl
        (by decide) rfl rfl rfl),
   (session_cookie_policy samplePrims sampleExt sampleEnv sampleDb
      (some "alice@example.com") (some "old-password") (some alice)).2.2.2 alice alice rfl rfl,
   (session_cookie_policy samplePrims sampleExt sampleEnv sampleDb
      (some "alice@example.com") (some "old-password") (some alice)).2.1
      ((session_cookie_policy samplePrims sampleExt sampleEnv sampleDb
        (some "alice@example.com") (some "old-password") (some alice)).2.2.2
        alice alice rfl rfl)⟩

/-- C17: once `forgotPassword` has found the user and saved the reset token, a
`sendEmail` that reports failure does not change the answer: the request
receives the success response with status 200, and the digest of the token
sent stays stored. -/
theorem forgotPassword_mail_failure (P : Prims) (X : Ext) (env : Env) (db db1 : List User)
    (email : String) (user doc : User)
    (hemail : email ≠ "")
    (hfind : findOne db (fun u => decide (u.email = castLowerTrim X email)) = some user)
    (hsave : save P env db (user.generatePasswordResetToken P env).2
        [Path.forgotPasswordToken, Path.forgotPasswordExpiryDate] = Except.ok (doc, db1))
    (_hmail : ∀ subject message, sendEmail X email subject message = false) :
    forgotPassword P X env db (some email)
      = ({ status := 200, cookies := [],
           body := Body.apiData 200 true Data.empty
             ("A password reset link has been sent successfully to " ++ email ++
               ". Please check your email inbox.") }, db1) ∧
    (∀ v ∈ db1, v._id = user._id →
      v.forgotPasswordToken
        = some (P.sha256Hex (user.generatePasswordResetToken P env).1)) := by
  constructor
  · unfold forgotPassword forgotPasswordFn
    simp [falsy, hemail, hfind, hsave, asyncHandler, ApiResponseData]
  · intro v hv hid
    simp only [save, preSave, writePaths, User.generatePasswordResetToken] at hsave
    simp only [List.contains_cons, List.contains_nil] at hsave
    simp at hsave
    obtain ⟨_, rfl⟩ := hsave
    obtain ⟨stored, _, rfl⟩ := List.mem_map.mp hv
    by_cases hs : stored._id = user._id
    · simp [hs, User.generatePasswordResetToken]
    · simp [hs] at hid

/-- Witness of C17: `alice` asks for a reset link while the mail transport
fails. -/
theorem forgotPassword_mail_failure_witness :
    forgotPassword samplePrims sampleExt sampleEnv sampleDb (some "alice@example.com")
      = ({ status := 200, cookies := [],
           body := Body.apiData 200 true Data.empty
             ("A password reset link has been sent successfully to " ++
               "alice@example.com" ++ ". Please check your email inbox.") }, pendingDb) :=
  (forgotPassword_mail_failure samplePrims sampleExt sampleEnv sampleDb pendingDb
    "alice@example.com" { alice with password := none } _
    (by decide) rfl rfl (fun _ _ => rfl)).1

/-! ### Passwords in responses and in saves -/

/-- A user document read with `.select("-password")` carries no password. -/
theorem selectMinusPassword_password (x : Option User) :
    (x.map User.selectMinusPassword).bind (fun u => u.password) = none := by
  cases x <;> rfl

/-- A document obtained through `.select("-password")` has no password. -/
theorem password_of_select {x : Option User} {u : User}
    (h : x.map User.selectMinusPassword = some u) : u.password = none := by
  cases x with
  | none => cases h
  | some v => cases h; rfl

/-- The response of `asyncHandler` carries no password when no response that
the body returns does. -/
theorem asyncHandler_dataPassword {σ : Type} (fn : Except JsError Response × σ)
    (h : ∀ r, fn.1 = Except.ok r → r.body.dataPassword = none) :
    (asyncHandler fn).1.body.dataPassword = none := by
  rcases fn with ⟨e | r, st⟩
  · rfl
  · exact h r rfl

/-- No response of `registerUser` carries a password. -/
theorem registerUser_dataPassword (P : Prims) (X : Ext) (env : Env) (db : List User)
    (body : RegisterBody) (file : Option String) :
    (registerUser P X env db body file).1.body.dataPassword = none := by
  apply asyncHandler_dataPassword
  intro r h
  unfold registerUserFn at h
  split at h
  · cases h
  · simp only at h
    split at h
    · cases h
    · split at h
      · cases h
      · split at h
        · cases h
        · split at h
          · cases h
          · split at h
            · cases h
            · split at h
              · cases h
              · split at h
                · cases h
                · rename_i createdUser hc
                  simp only [Except.ok.injEq] at h
                  subst h
                  exact password_of_select hc

/-- No response of `loginUser` carries a password. -/
theorem loginUser_dataPassword (P : Prims) (X : Ext) (env : Env) (db : List User)
    (email password : Option String) :
    (loginUser P X env db email password).1.body.dataPassword = none := by
  apply asyncHandler_dataPassword
  intro r h
  unfold loginUserFn at h
  split at h
  · cases h
  · split at h
    · cases h
    · split at h
      · cases h
      · split at h
        · cases h
        · simp only [Except.ok.injEq] at h
          subst h
          exact selectMinusPassword_password _

/-- No response of `changePassword` carries a password. -/
theorem changePassword_dataPassword (P : Prims) (db : List User) (reqUser : Option User)
    (oldPassword newPassword : Option String) :
    (changePassword P db reqUser oldPassword newPassword).1.body.dataPassword = none := by
  apply asyncHandler_dataPassword
  intro r h
  unfold changePasswordFn at h
  split at h
  · cases h
  · split at h
    · simp only at h
      split at h
      · cases h
      · split at h
        · cases h
        · split at h
          · cases h
          · split at h
            · cases h
            · split at h
              · cases h
              · simp only [Prod.fst, Except.ok.injEq] at h
                subst h
                exact selectMinusPassword_password _
    · cases h

/-- No response of `resetPassword` carries a password. -/
theorem resetPassword_dataPassword (P : Prims) (env : Env) (db : List User) (r : String)
    (pw : Option String) :
    (resetPassword P env db r pw).1.body.dataPassword = none := by
  apply asyncHandler_dataPassword
  intro resp h
  unfold resetPasswordFn at h
  simp only at h
  split at h
  · cases h
  · split at h
    · cases h
    · simp only [Except.ok.injEq] at h
      subst h
      rfl

/-- No response of `userDetails` carries a password. -/
theorem userDetails_dataPassword (db : List User) (reqUser : Option User) :
    (userDetails db reqUser).1.body.dataPassword = none := by
  apply asyncHandler_dataPassword
  intro r h
  unfold userDetailsFn at h
  split at h
  · cases h
  · split at h
    · cases h
    · rename_i user hu
      simp only [Except.ok.injEq] at h
      subst h
      exact password_of_select hu

/-- No response of `updateUser` carries a password. -/
theorem updateUser_dataPassword (X : Ext) (db : List User) (reqUser : Option User)
    (name bio file : Option String) :
    (updateUser X db reqUser name bio file).1.body.dataPassword = none := by
  apply asyncHandler_dataPassword
  intro r h
  unfold updateUserFn at h
  split at h
  · cases h
  · simp only at h
    split at h
    · cases h
    · split at h
      · split at h
        · cases h
        · simp only [Except.ok.injEq] at h
          subst h
          exact selectMinusPassword_password _
      · simp only [Except.ok.injEq] at h
        subst h
        exact selectMinusPassword_password _

/-- C18: no response of `registerUser`, `loginUser`, `changePassword`,
`resetPassword`, `userDetails` or `updateUser`, successful or not, carries the
password of a user (digest or plaintext) in its data. -/
theorem responses_carry_no_password (P : Prims) (X : Ext) (env : Env) (db : List User)
    (body : RegisterBody) (file email password oldPassword newPassword name bio : Option String)
    (forgotToken : String) (reqUser : Option User) :
    (registerUser P X env db body file).1.body.dataPassword = none ∧
    (loginUser P X env db email password).1.body.dataPassword = none ∧
    (changePassword P db reqUser oldPassword newPassword).1.body.dataPassword = none ∧
    (resetPassword P env db forgotToken password).1.body.dataPassword = none ∧
    (userDetails db reqUser).1.body.dataPassword = none ∧
    (updateUser X db reqUser name bio file).1.body.dataPassword = none :=
  ⟨registerUser_dataPassword P X env db body file,
   loginUser_dataPassword P X env db email password,
   changePassword_dataPassword P db reqUser oldPassword newPassword,
   resetPassword_dataPassword P env db forgotToken password,
   userDetails_dataPassword db reqUser,
   updateUser_dataPassword X db reqUser name bio file⟩

/-- A save that does not modify `password` succeeds, returns the document as it
was given (the hook hashes nothing) and writes no password. -/
theorem save_of_password_unmodified (P : Prims) (env : Env) (db : List User) (this : User)
    (modified : List Path) (h : modified.contains Path.password = false) :
    preSave P env modified this = this ∧
    save P env db this modified
      = Except.ok (this, db.map (fun stored =>
          if stored._id = this._id then writePaths modified this stored else stored)) ∧
    ∀ stored, (writePaths modified this stored).password = stored.password := by
  have hmem : Path.password ∉ modified := by simpa using h
  have hpre : preSave P env modified this = this := by simp [preSave, hmem]
  refine ⟨hpre, ?_, ?_⟩
  · simp [save, hmem, hpre]
  · intro stored; simp [writePaths, hmem]

/-- The passwords stored after a save that does not modify `password` are the
passwords stored before. -/
theorem save_passwords (P : Prims) (env : Env) (db db1 : List User) (this doc : User)
    (modified : List Path) (h : modified.contains Path.password = false)
    (hsave : save P env db this modified = Except.ok (doc, db1)) :
    db1.map (fun u => u.password) = db.map (fun u => u.password) := by
  obtain ⟨_, hs, hw⟩ := save_of_password_unmodified P env db this modified h
  rw [hs] at hsave
  simp only [Except.ok.injEq, Prod.mk.injEq] at hsave
  obtain ⟨_, rfl⟩ := hsave
  rw [List.map_map]
  apply List.map_congr_left
  intro u _
  by_cases hid : u._id = this._id
  · simp [hid, hw]
  · simp [hid]

/-- The passwords stored after `forgotPassword` are those stored before. -/
theorem forgotPassword_passwords (P : Prims) (X : Ext) (env : Env) (db : List User)
    (email : Option String) :
    (forgotPassword P X env db email).2.map (fun u => u.password)
      = db.map (fun u => u.password) := by
  rw [forgotPassword, asyncHandler_snd]
  unfold forgotPasswordFn
  split
  · rfl
  · simp only
    split
    · rfl
    · split
      · rfl
      · rename_i hsave
        exact save_passwords P env db _ _ _
          [Path.forgotPasswordToken, Path.forgotPasswordExpiryDate] rfl hsave

/-- The passwords stored after `buyCourse` are those stored before. -/
theorem buyCourse_passwords (P : Prims) (X : Ext) (env : Env) (db : List User)
    (gateway : List RazorpayOrder) (reqUser : Option User) (amount : Option Int) :
    (buyCourse P X env db gateway reqUser amount).2.1.map (fun u => u.password)
      = db.map (fun u => u.password) := by
  rw [buyCourse, asyncHandler_snd]
  unfold buyCourseFn
  split
  · rfl
  · split
    · rfl
    · split
      · rfl
      · split
        · rfl
        · split
          · rfl
          · split
            · rfl
            · simp only
              split
              · rfl
              · rename_i hsave
                exact save_passwords P env db _ _ _ [Path.orders] rfl hsave

/-- The passwords stored after `verifyPurchase` are those stored before. -/
theorem verifyPurchase_passwords (P : Prims) (X : Ext) (env : Env) (db : List User)
    (payments : List Payment) (reqUser : Option User) (body : VerifyBody) :
    (verifyPurchase P X env db payments reqUser body).2.1.map (fun u => u.password)
      = db.map (fun u => u.password) := by
  rw [verifyPurchase, asyncHandler_snd]
  unfold verifyPurchaseFn
  split
  · rfl
  · split
    · rfl
    · split
      · rfl
      · simp only
        split
        · rfl
        · split
          · rfl
          · split
            · rfl
            · rename_i hsave
              exact save_passwords P env db _ _ _ [Path.orders] rfl hsave

/-- C19: a save of a user document whose `password` was not modified succeeds
without hashing (the hook returns the document as given) and leaves every
stored password as it was; so do the saves of `forgotPassword`, `buyCourse`
and `verifyPurchase`. -/
theorem save_without_password_keeps_hash (P : Prims) (X : Ext) (env : Env) (db : List User)
    (this : User) (modified : List Path) (email : Option String)
    (gateway : List RazorpayOrder) (payments : List Payment) (reqUser : Option User)
    (amount : Option Int) (body : VerifyBody) :
    (modified.contains Path.password = false →
      preSave P env modified this = this ∧
      ∃ db1, save P env db this modified = Except.ok (this, db1) ∧
        db1.map (fun u => u.password) = db.map (fun u => u.password)) ∧
    (forgotPassword P X env db email).2.map (fun u => u.password)
      = db.map (fun u => u.password) ∧
    (buyCourse P X env db gateway reqUser amount).2.1.map (fun u => u.password)
      = db.map (fun u => u.password) ∧
    (verifyPurchase P X env db payments reqUser body).2.1.map (fun u => u.password)
      = db.map (fun u => u.password) := by
  refine ⟨fun h => ?_, forgotPassword_passwords P X env db email,
    buyCourse_passwords P X env db gateway reqUser amount,
    verifyPurchase_passwords P X env db payments reqUser body⟩
  obtain ⟨hpre, hs, _⟩ := save_of_password_unmodified P env db this modified h
  exact ⟨hpre, _, hs, save_passwords P env db _ this this modified h hs⟩

/-- Witness of C19: the save of the reset fields of `alice`. -/
theorem save_without_password_keeps_hash_witness :
    preSave samplePrims sampleEnv [Path.forgotPasswordToken, Path.forgotPasswordExpiryDate]
        (alice.generatePasswordResetToken samplePrims sampleEnv).2
      = (alice.generatePasswordResetToken samplePrims sampleEnv).2 ∧
    ∃ db1, save samplePrims sampleEnv sampleDb
        (alice.generatePasswordResetToken samplePrims sampleEnv).2
        [Path.forgotPasswordToken, Path.forgotPasswordExpiryDate]
          = Except.ok ((alice.generatePasswordResetToken samplePrims sampleEnv).2, db1) ∧
      db1.map (fun u => u.password) = sampleDb.map (fun u => u.password) :=
  (save_without_password_keeps_hash samplePrims sampleExt sampleEnv sampleDb
    (alice.generatePasswordResetToken samplePrims sampleEnv).2
    [Path.forgotPasswordToken, Path.forgotPasswordExpiryDate] none [] [] none none
    { order_id := none, payment_id := none, signature := none, amount := none,
      currency := none }).1 rfl

/-- C20 (code evaluated at the failing inputs): for a logged-in user whose role
is `ADMIN`, `buyCourse` with a positive amount does not reject: the guard
compares the role with `admin`, so the order is created at Razorpay, appended
to the orders of the user and returned with status 200. -/
theorem buyCourse_admin_not_rejected (P : Prims) (X : Ext) (env : Env) (db : List User)
    (gateway : List RazorpayOrder) (reqUser user : User) (amount : Int)
    (order : RazorpayOrder)
    (hfind : findById db (some reqUser._id) = some user)
    (hrole : user.role = "ADMIN") (hamount : 0 < amount)
    (horder : X.ordersCreate (amount * 100) "INR" (receiptOf user._id) = Except.ok order) :
    buyCourse P X env db gateway (some reqUser) (some amount)
      = ({ status := 200, cookies := [],
           body := Body.apiData 200 true (Data.order order) "Your order has been created." },
         (db.map (fun stored =>
            if stored._id = user._id then
              { stored with orders := user.orders ++
                  [{ order_id := some order.id, receipt_id := some order.receipt,
                     status := some order.status }] }
            else stored),
          gateway ++ [order])) := by
  have hne : ¬ user.role = "admin" := by rw [hrole]; decide
  have hpos : ¬ amount ≤ 0 := not_le.mpr hamount
  unfold buyCourse buyCourseFn
  simp [hfind, User.selectMinusPassword, hne, hpos, horder, save, preSave, writePaths,
    asyncHandler, ApiResponseData]

/-- Witness of C20: `root`, an `ADMIN`, buys a course for 500. -/
theorem buyCourse_admin_not_rejected_witness :
    buyCourse samplePrims sampleExt sampleEnv sampleDb [] (some root) (some 500)
      = ({ status := 200, cookies := [],
           body := Body.apiData 200 true
             (Data.order { id := "order_1", amount := 50000, currency := "INR",
                           receipt := receiptOf 2, status := "created" })
             "Your order has been created." },
         (sampleDb.map (fun stored =>
            if stored._id = root._id then
              { stored with orders := root.orders ++
                  [{ order_id := some "order_1", receipt_id := some (receiptOf 2),
                     status := some "created" }] }
            else stored),
          [] ++ [{ id := "order_1", amount := 50000, currency := "INR",
                   receipt := receiptOf 2, status := "created" }])) :=
  buyCourse_admin_not_rejected samplePrims sampleExt sampleEnv sampleDb [] root root 500
    { id := "order_1", amount := 50000, currency := "INR", receipt := receiptOf 2,
      status := "created" } rfl rfl (by decide) rfl

/-! ### Profile updates, receipts and uploads -/

/-- The collection after `updateUser`: unchanged, or with the avatar of the
documents of one id replaced. -/
theorem updateUser_db (X : Ext) (db : List User) (reqUser : Option User)
    (name bio file : Option String) :
    (updateUser X db reqUser name bio file).2.1 = db ∨
    ∃ id avatar, (updateUser X db reqUser name bio file).2.1
      = db.map (fun stored =>
          if stored._id = id then { stored with avatar := some avatar } else stored) := by
  rw [updateUser, asyncHandler_snd]
  unfold updateUserFn
  split
  · exact Or.inl rfl
  · simp only
    split
    · exact Or.inl rfl
    · split
      · split
        · exact Or.inl rfl
        · exact Or.inr ⟨_, _, rfl⟩
      · exact Or.inl rfl

/-- C21 (code evaluated at the failing inputs): an `updateUser` request of an
existing user without uploaded file, whatever `name` and `bio` it carries,
leaves the collection as it was and returns the stored user as it was: the
assignments to `user.name` and `user.bio` are never saved. -/
theorem updateUser_name_bio_not_saved (X : Ext) (db : List User) (reqUser user : User)
    (name bio file : Option String)
    (hfind : findById db (some reqUser._id) = some user)
    (hfile : falsy file = true) :
    updateUser X db (some reqUser) name bio file
      = ({ status := 200, cookies := [],
           body := Body.api 200 true (some { user with password := none })
             "User details updated successfully." }, (db, [])) := by
  unfold updateUser updateUserFn
  simp [hfind, hfile, User.selectMinusPassword, asyncHandler, ApiResponse]

/-- Witness of C21: `alice` asks to be renamed; her stored name stays. -/
theorem updateUser_name_bio_not_saved_witness :
    updateUser sampleExt sampleDb (some alice) (some "Alice B") (some "Teacher") none
      = ({ status := 200, cookies := [],
           body := Body.api 200 true (some { alice with password := none })
             "User details updated successfully." }, (sampleDb, [])) :=
  updateUser_name_bio_not_saved sampleExt sampleDb alice alice (some "Alice B")
    (some "Teacher") none rfl rfl

/-- C22 (code evaluated at the failing inputs): an `updateUser` request of an
existing user that uploads a file makes exactly one call to Cloudinary, the
upload of the new file, also when the user has a stored avatar: the test
`user.avatar.url` is never met, so nothing is removed. -/
theorem updateUser_previous_avatar_not_removed (X : Ext) (db : List User)
    (reqUser user : User) (name bio : Option String) (path avatar : String)
    (hfind : findById db (some reqUser._id) = some user)
    (_havatar : user.avatar = some avatar)
    (hpath : path ≠ "") :
    (updateUser X db (some reqUser) name bio (some path)).2.2
      = [CloudinaryCall.upload path] := by
  rw [updateUser, asyncHandler_snd]
  unfold updateUserFn
  simp only [hfind, Option.map_some']
  have hf : falsy (some path) = false := by simp [falsy, hpath]
  simp only [hf]
  simp only [avatarUrl, falsy]
  cases uploadOnCloudinary X (some path) <;> simp

/-- Witness of C22: `alice`, whose stored avatar is `a.png`, uploads a new one. -/
theorem updateUser_previous_avatar_not_removed_witness :
    (updateUser sampleExt sampleDb (some alice) none none (some "/tmp/b.png")).2.2
      = [CloudinaryCall.upload "/tmp/b.png"] :=
  updateUser_previous_avatar_not_removed sampleExt sampleDb alice alice none none
    "/tmp/b.png" "a.png" rfl rfl (by decide)

/-- A document obtained through `findById(id).select("-password")` has the id
asked for. -/
theorem id_of_select {db : List User} {id : ObjectId} {u : User}
    (h : (findById db (some id)).map User.selectMinusPassword = some u) : u._id = id := by
  cases hf : findById db (some id) with
  | none => rw [hf] at h; cases h
  | some v =>
      rw [hf] at h
      cases h
      have := (findById_some hf).2
      simpa [User.selectMinusPassword] using this

/-- A successful `buyCourse` asked Razorpay for an order whose receipt is
`receiptOf` of the id of the requester, and that order is the one recorded. -/
theorem buyCourseFn_ok {P : Prims} {X : Ext} {env : Env} {db : List User}
    {gateway : List RazorpayOrder} {ru : User} {amount : Option Int} {resp : Response}
    {st : List User × List RazorpayOrder}
    (h : buyCourseFn P X env db gateway (some ru) amount = (Except.ok resp, st)) :
    ∃ a order, amount = some a ∧
      X.ordersCreate (a * 100) "INR" (receiptOf ru._id) = Except.ok order ∧
      st.2 = gateway ++ [order] := by
  unfold buyCourseFn at h
  simp only at h
  split at h
  · cases h
  · rename_i user hu
    have hid := id_of_select hu
    split at h
    · cases h
    · split at h
      · cases h
      · rename_i a
        split at h
        · cases h
        · split at h
          · cases h
          · rename_i order horder
            split at h
            · cases h
            · simp only [Prod.mk.injEq] at h
              obtain ⟨_, rfl⟩ := h
              rw [hid] at horder
              exact ⟨a, order, rfl, horder, rfl⟩

/-- C23 (code evaluated at the failing inputs): any two successful `buyCourse`
requests of the same user, whatever the amounts, the times and the orders that
Razorpay returns, send Razorpay the same receipt string, which depends on the
id of the user only. -/
theorem buyCourse_receipt_repeats (P : Prims) (X1 X2 : Ext) (env1 env2 : Env)
    (db1 db2 : List User) (g1 g2 : List RazorpayOrder) (ru1 ru2 : User)
    (amount1 amount2 : Option Int) (resp1 resp2 : Response)
    (st1 st2 : List User × List RazorpayOrder)
    (hsame : ru1._id = ru2._id)
    (h1 : buyCourseFn P X1 env1 db1 g1 (some ru1) amount1 = (Except.ok resp1, st1))
    (h2 : buyCourseFn P X2 env2 db2 g2 (some ru2) amount2 = (Except.ok resp2, st2)) :
    ∃ receipt a1 a2 o1 o2, receipt = receiptOf ru1._id ∧
      X1.ordersCreate (a1 * 100) "INR" receipt = Except.ok o1 ∧
      X2.ordersCreate (a2 * 100) "INR" receipt = Except.ok o2 ∧
      st1.2 = g1 ++ [o1] ∧ st2.2 = g2 ++ [o2] := by
  obtain ⟨a1, o1, _, hc1, hs1⟩ := buyCourseFn_ok h1
  obtain ⟨a2, o2, _, hc2, hs2⟩ := buyCourseFn_ok h2
  rw [← hsame] at hc2
  exact ⟨_, a1, a2, o1, o2, rfl, hc1, hc2, hs1, hs2⟩

/-- Witness of C23: `alice` buys two courses; the orders `order_1` and
`order_2` carry the same receipt. -/
theorem buyCourse_receipt_repeats_witness :
    ∃ receipt a1 a2 o1 o2, receipt = receiptOf alice._id ∧
      sampleExt.ordersCreate (a1 * 100) "INR" receipt = Except.ok o1 ∧
      sampleExtNext.ordersCreate (a2 * 100) "INR" receipt = Except.ok o2 ∧
      (buyCourseFn samplePrims sampleExt sampleEnv sampleDb [] (some alice) (some 500)).2.2
        = [] ++ [o1] ∧
      (buyCourseFn samplePrims sampleExtNext sampleEnv orderedDb [] (some alice)
        (some 700)).2.2 = [] ++ [o2] :=
  buyCourse_receipt_repeats samplePrims sampleExt sampleExtNext sampleEnv sampleEnv
    sampleDb orderedDb [] [] alice alice (some 500) (some 700) _ _ _ _ rfl rfl rfl

/-- The test `startsWith` holds exactly for the strings that continue the
pattern. -/
theorem startsWith_iff (s p : String) :
    startsWith s p = true ↔ ∃ rest : String, s = p ++ rest := by
  unfold startsWith
  rw [ List.isPrefixOf_iff_prefix]
  constructor
  · rintro ⟨t, ht⟩
    exact ⟨String.mk t, String.ext (by rw [String.data_append, ht])⟩
  · rintro ⟨rest, rfl⟩
    exact ⟨rest.data, by rw [String.data_append]⟩

/-- C24 (code evaluated): the file size limit that `upload` is configured with
is 25 * 1024 * 1024 = 26214400 bytes, not 5 * 1024 * 1024; its file filter
accepts a file exactly when the MIME type starts with `image/` or `video/`. -/
theorem upload_limit_and_filter :
    upload.limits.fileSize = 26214400 ∧
    upload.limits.fileSize ≠ 5 * 1024 * 1024 ∧
    ∀ mimetype : String, (upload.fileFilter mimetype = Except.ok true ↔
      ((∃ rest : String, mimetype = "image/" ++ rest) ∨
        (∃ rest : String, mimetype = "video/" ++ rest))) := by
  refine ⟨rfl, by decide, ?_⟩
  intro mimetype
  rw [← startsWith_iff, ← startsWith_iff]
  show fileFilter mimetype = Except.ok true ↔ _
  unfold fileFilter
  by_cases h : (startsWith mimetype "image/" || startsWith mimetype "video/") = true
  · rw [if_pos h]
    simpa using h
  · rw [if_neg h]
    simp only [Bool.or_eq_true] at h
    constructor
    · intro hc; cases hc
    · intro hc; exact absurd hc h

/-- The collection after a successful `changePassword` is the one that
`findByIdAndUpdate` wrote. -/
theorem changePasswordFn_ok_db {P : Prims} {db db1 : List User} {reqUser : User}
    {oldPassword newPassword : String} {r : Response}
    (h : changePasswordFn P db (some reqUser) (some oldPassword) (some newPassword)
      = (Except.ok r, db1)) :
    db1 = (findByIdAndUpdatePassword db reqUser._id newPassword).2 := by
  unfold changePasswordFn at h
  simp only at h
  split at h
  · cases h
  · split at h
    · cases h
    · split at h
      · cases h
      · split at h
        · cases h
        · split at h
          · cases h
          · simp only [Prod.mk.injEq] at h
            exact h.2.symm

/-- A `loginUser` whose password does not verify throws the wrong-password
error. -/
theorem loginUserFn_wrong_password (P : Prims) (X : Ext) (env : Env) (db : List User)
    (email password : String) (user : User) (hemail : email ≠ "") (hpassword : password ≠ "")
    (hfind : db.find? (fun u => decide (u.email = castLowerTrim X email)) = some user)
    (hwrong : user.isPasswordCorrect P password = Except.ok false) :
    loginUserFn P X env db (some email) (some password)
      = (Except.error (ApiError 401 "Invalid Email-ID or Password."), db) := by
  unfold loginUserFn
  simp [falsy, hemail, hpassword, hfind, hwrong]

/-- C25 (code evaluated at the failing inputs): after a successful
`changePassword` the stored password is the plaintext `newPassword`, which
bcrypt does not accept as a digest of itself; so a `loginUser` with the email
of the user and `newPassword` throws the wrong-password error and is answered
with a failure, without cookie. -/
theorem loginUser_after_changePassword_fails (P : Prims) (X : Ext) (env : Env)
    (db db1 : List User) (reqUser user : User) (oldPassword newPassword email : String)
    (r : Response)
    (hchange : changePasswordFn P db (some reqUser) (some oldPassword) (some newPassword)
      = (Except.ok r, db1))
    (hemail : email ≠ "") (hnew : newPassword ≠ "")
    (hfind : db1.find? (fun u => decide (u.email = castLowerTrim X email)) = some user)
    (hid : user._id = reqUser._id)
    (hplain : P.bcryptCompare newPassword newPassword = false) :
    user.password = some newPassword ∧
    loginUserFn P X env db1 (some email) (some newPassword)
      = (Except.error (ApiError 401 "Invalid Email-ID or Password."), db1) ∧
    loginUser P X env db1 (some email) (some newPassword)
      = ({ status := 500, cookies := [],
           body := Body.failure "Invalid Email-ID or Password." }, db1) := by
  have hstored : user.password = some newPassword := by
    have hmem := List.mem_of_find?_eq_some hfind
    rw [changePasswordFn_ok_db hchange] at hmem
    exact findByIdAndUpdatePassword_password db reqUser._id newPassword user hmem hid
  have hfn := loginUserFn_wrong_password P X env db1 email newPassword user hemail hnew
    hfind (by simp [User.isPasswordCorrect, hstored, hplain])
  refine ⟨hstored, hfn, ?_⟩
  rw [loginUser, hfn, asyncHandler_error _ _ rfl]
  rfl

/-- Witness of C25: `alice` changes her password to `new-password` and then
logs in with it. -/
theorem loginUser_after_changePassword_fails_witness :
    loginUser samplePrims sampleExt sampleEnv
        (changePassword samplePrims sampleDb (some alice) (some "old-password")
          (some "new-password")).2
        (some "alice@example.com") (some "new-password")
      = ({ status := 500, cookies := [],
           body := Body.failure "Invalid Email-ID or Password." },
         (changePassword samplePrims sampleDb (some alice) (some "old-password")
          (some "new-password")).2) :=
  (loginUser_after_changePassword_fails samplePrims sampleExt sampleEnv sampleDb _ alice
    { alice with password := some "new-password" } "old-password" "new-password"
    "alice@example.com" _ rfl (by decide) (by decide) rfl rfl rfl).2.2

/-! ### Verifying a purchase -/

/-- The outcome of `verifyPurchase` for an existing user, branch by branch: no
order with the id, a wrong signature, a payment that fails validation, or a
created payment with the order activated. -/
theorem verifyPurchaseFn_cases (P : Prims) (X : Ext) (env : Env) (db : List User)
    (payments : List Payment) (reqUser user : User) (body : VerifyBody)
    (hfind : findById db (some reqUser._id) = some user)
    (hfresh : ∀ p ∈ payments, p._id ≠ X.newObjectId) :
    ((∀ o ∈ user.orders, o.order_id ≠ body.order_id) ∧
      verifyPurchaseFn P X env db payments (some reqUser) body
        = (Except.error (ApiError 404 "Order does not exist."), (db, payments))) ∨
    ((∃ o ∈ user.orders, o.order_id = body.order_id) ∧
      body.signature ≠ some (X.hmacSha256Hex X.RAZORPAY_KEY_SECRET
        (templateString body.order_id ++ "|" ++ templateString body.payment_id)) ∧
      verifyPurchaseFn P X env db payments (some reqUser) body
        = (Except.error (ApiError 400 "Payment not verified, please try again."),
            (db, payments))) ∨
    ((∃ o ∈ user.orders, o.order_id = body.order_id) ∧
      body.signature = some (X.hmacSha256Hex X.RAZORPAY_KEY_SECRET
        (templateString body.order_id ++ "|" ++ templateString body.payment_id)) ∧
      validateNewPayment user.name user.email user.mobile body ≠ [] ∧
      ∃ message, verifyPurchaseFn P X env db payments (some reqUser) body
        = (Except.error (libError "ValidationError" message), (db, payments))) ∨
    ((∃ o ∈ user.orders, o.order_id = body.order_id) ∧
      body.signature = some (X.hmacSha256Hex X.RAZORPAY_KEY_SECRET
        (templateString body.order_id ++ "|" ++ templateString body.payment_id)) ∧
      validateNewPayment user.name user.email user.mobile body = [] ∧
      verifyPurchaseFn P X env db payments (some reqUser) body
        = (Except.ok { status := 200, cookies := [],
                       body := Body.apiData 200 true
                         (Data.payment
                           { _id := X.newObjectId, name := user.name, email := user.email,
                             mobile := user.mobile, order_id := body.order_id.getD "",
                             payment_id := body.payment_id.getD "",
                             signature := body.signature.getD "",
                             amount := body.amount.getD 0,
                             currency := body.currency.getD "", status := "done" })
                         "Payment verified successfully." },
            (db.map (fun stored =>
               if stored._id = user._id then
                 { stored with orders := activateFirst body.order_id user.orders }
               else stored),
             payments ++
               [{ _id := X.newObjectId, name := user.name, email := user.email,
                  mobile := user.mobile, order_id := body.order_id.getD "",
                  payment_id := body.payment_id.getD "",
                  signature := body.signature.getD "", amount := body.amount.getD 0,
                  currency := body.currency.getD "", status := "done" }]))) := by
  have hany : payments.any (fun p => decide (p._id = X.newObjectId)) = false := by
    rw [List.any_eq_false]
    intro p hp
    simpa using hfresh p hp
  cases hfo : user.orders.find? (fun order => decide (order.order_id = body.order_id)) with
  | none =>
      left
      refine ⟨fun o ho => by simpa using List.find?_eq_none.mp hfo o ho, ?_⟩
      unfold verifyPurchaseFn
      simp [hfind, User.selectMinusPassword, hfo]
  | some order =>
      have hoid : order.order_id = body.order_id := by simpa using List.find?_some hfo
      have hhas : ∃ o ∈ user.orders, o.order_id = body.order_id :=
        ⟨order, List.mem_of_find?_eq_some hfo, hoid⟩
      right
      by_cases hsig : body.signature = some (X.hmacSha256Hex X.RAZORPAY_KEY_SECRET
          (templateString body.order_id ++ "|" ++ templateString body.payment_id))
      · right
        cases hval : validateNewPayment user.name user.email user.mobile body with
        | cons failure failures =>
            left
            refine ⟨hhas, hsig, by simp,
              "Payment validation failed: " ++ ", ".intercalate (failure :: failures), ?_⟩
            unfold verifyPurchaseFn
            simp [hfind, User.selectMinusPassword, hfo, hoid, hsig, Payment.create, hval]
        | nil =>
            right
            refine ⟨hhas, hsig, rfl, ?_⟩
            unfold verifyPurchaseFn
            simp [hfind, User.selectMinusPassword, hfo, hoid, hsig, Payment.create, hval,
              hany, save, preSave, writePaths, ApiResponseData]
      · left
        refine ⟨hhas, hsig, ?_⟩
        unfold verifyPurchaseFn
        simp [hfind, User.selectMinusPassword, hfo, hoid, Ne.symm hsig]

/-- The assignment of `activateFirst` leaves an order with the id whose status
is `active`, when some order has the id. -/
theorem activateFirst_active (order_id : Option String) (orders : List Order)
    (h : ∃ o ∈ orders, o.order_id = order_id) :
    ∃ o ∈ activateFirst order_id orders, o.order_id = order_id ∧ o.status = some "active" := by
  induction orders with
  | nil => obtain ⟨o, ho, _⟩ := h; cases ho
  | cons a as ih =>
      by_cases ha : a.order_id = order_id
      · exact ⟨{ a with status := some "active" }, by simp [activateFirst, ha], ha, rfl⟩
      · obtain ⟨o, ho, hoid⟩ := h
        rcases List.mem_cons.mp ho with rfl | ho
        · exact absurd hoid ha
        · obtain ⟨o1, ho1, h1⟩ := ih ⟨o, ho, hoid⟩
          exact ⟨o1, by simp [activateFirst, ha, ho1], h1⟩

/-- C26 (as amended): for an existing user and a fresh payment identifier,
`verifyPurchase` creates a Payment with status `done` and sets the status of the
matching order to `active` exactly when the user has an order with the supplied
`order_id`, the supplied signature is the hex HMAC-SHA256, under the Razorpay
key secret, of `order_id|payment_id`, and the payment passes the `required`
validators of its schema; in every other case it fails, no Payment is created
and the collection of users is unchanged. -/
theorem verifyPurchase_creates_payment_iff (P : Prims) (X : Ext) (env : Env)
    (db : List User) (payments : List Payment) (reqUser user : User) (body : VerifyBody)
    (hfind : findById db (some reqUser._id) = some user)
    (hfresh : ∀ p ∈ payments, p._id ≠ X.newObjectId) :
    (((∃ o ∈ user.orders, o.order_id = body.order_id) ∧
        body.signature = some (X.hmacSha256Hex X.RAZORPAY_KEY_SECRET
          (templateString body.order_id ++ "|" ++ templateString body.payment_id)) ∧
        validateNewPayment user.name user.email user.mobile body = []) →
      (verifyPurchase P X env db payments (some reqUser) body).1.status = 200 ∧
      (∃ payment, payment.status = "done" ∧ payment.order_id = body.order_id.getD "" ∧
        (verifyPurchase P X env db payments (some reqUser) body).2.2
          = payments ++ [payment]) ∧
      (verifyPurchase P X env db payments (some reqUser) body).2.1
        = db.map (fun stored =>
            if stored._id = user._id then
              { stored with orders := activateFirst body.order_id user.orders }
            else stored) ∧
      ∃ o ∈ activateFirst body.order_id user.orders,
        o.order_id = body.order_id ∧ o.status = some "active") ∧
    (¬ ((∃ o ∈ user.orders, o.order_id = body.order_id) ∧
        body.signature = some (X.hmacSha256Hex X.RAZORPAY_KEY_SECRET
          (templateString body.order_id ++ "|" ++ templateString body.payment_id)) ∧
        validateNewPayment user.name user.email user.mobile body = []) →
      (verifyPurchase P X env db payments (some reqUser) body).1.status = 500 ∧
      (verifyPurchase P X env db payments (some reqUser) body).2 = (db, payments)) := by
  rcases verifyPurchaseFn_cases P X env db payments reqUser user body hfind hfresh with
    ⟨hno, hfn⟩ | ⟨hhas, hsig, hfn⟩ | ⟨hhas, hsig, hval, message, hfn⟩ | ⟨hhas, hsig, hval, hfn⟩
  · constructor
    · rintro ⟨⟨o, ho, hoid⟩, _⟩
      exact absurd hoid (hno o ho)
    · intro _
      rw [verifyPurchase, hfn, asyncHandler_error _ _ rfl]
      exact ⟨rfl, rfl⟩
  · constructor
    · rintro ⟨_, hs, _⟩
      exact absurd hs hsig
    · intro _
      rw [verifyPurchase, hfn, asyncHandler_error _ _ rfl]
      exact ⟨rfl, rfl⟩
  · constructor
    · rintro ⟨_, _, hv⟩
      exact absurd hv hval
    · intro _
      rw [verifyPurchase, hfn, asyncHandler_error _ _ rfl]
      exact ⟨rfl, rfl⟩
  · constructor
    · intro _
      rw [verifyPurchase, hfn]
      exact ⟨rfl, ⟨_, rfl, rfl, rfl⟩, rfl, activateFirst_active _ _ hhas⟩
    · intro hnot
      exact absurd ⟨hhas, hsig, hval⟩ hnot

/-- Witness of C26: `alice` pays the order `order_1` that she created. -/
theorem verifyPurchase_creates_payment_iff_witness :
    (verifyPurchase samplePrims sampleExt sampleEnv orderedDb [] (some alice)
        paidBody).1.status = 200 ∧
    (∃ payment, payment.status = "done" ∧ payment.order_id = paidBody.order_id.getD "" ∧
      (verifyPurchase samplePrims sampleExt sampleEnv orderedDb [] (some alice) paidBody).2.2
        = [] ++ [payment]) :=
  ⟨((verifyPurchase_creates_payment_iff samplePrims sampleExt sampleEnv orderedDb []
      alice
      { alice with
        orders := [{ order_id := some "order_1", receipt_id := some (receiptOf 1),
                     status := some "created" }] }
      paidBody rfl (fun _ h => by cases h)).1
      ⟨⟨_, List.mem_cons_self _ _, rfl⟩, rfl, rfl⟩).1,
   ((verifyPurchase_creates_payment_iff samplePrims sampleExt sampleEnv orderedDb []
      alice
      { alice with
        orders := [{ order_id := some "order_1", receipt_id := some (receiptOf 1),
                     status := some "created" }] }
      paidBody rfl (fun _ h => by cases h)).1
      ⟨⟨_, List.mem_cons_self _ _, rfl⟩, rfl, rfl⟩).2.1⟩

/-- C26 (the claim as stated fails): `alice` holds the order `order_1` and the
request carries the right signature for it, but no `amount`; no Payment is
created and her orders stay as they were. -/
theorem verifyPurchase_without_amount :
    (∃ user, findById orderedDb (some alice._id) = some user ∧
      (∃ o ∈ user.orders, o.order_id = some "order_1")) ∧
    some "hmac:rzp-secret:order_1|pay_1"
      = some (sampleExt.hmacSha256Hex sampleExt.RAZORPAY_KEY_SECRET
          (templateString (some "order_1") ++ "|" ++ templateString (some "pay_1"))) ∧
    verifyPurchase samplePrims sampleExt sampleEnv orderedDb [] (some alice)
        { paidBody with amount := none }
      = ({ status := 500, cookies := [],
           body := Body.failure "Payment validation failed: amount: Amount is required." },
         (orderedDb, [])) :=
  ⟨⟨_, rfl, _, List.mem_cons_self _ _, rfl⟩, rfl, rfl⟩

/-! ### Lectures of a course -/

/-- What `Course.findById` finds is a stored course with the id asked for. -/
theorem course_findById_some {courses : List Course} {id : ObjectId} {c : Course}
    (h : Course.findById courses id = some c) : c ∈ courses ∧ c._id = id := by
  unfold Course.findById at h
  exact ⟨List.mem_of_find?_eq_some h, by simpa using List.find?_some h⟩

/-- The outcome of `createLecture`: an error that writes nothing, or the saved
course with one lecture more and the count set to the new length. -/
theorem createLectureFn_cases (X : Ext) (courses : List Course) (id : ObjectId)
    (title description file : Option String) :
    (∃ e, e.code = none ∧
      createLectureFn X courses id title description file = (Except.error e, courses)) ∨
    (∃ course lectureFile body, Course.findById courses id = some course ∧
      createLectureFn X courses id title description file
        = (Except.ok { status := 201, cookies := [], body := body },
           courses.map (fun stored =>
             if stored._id = course._id then
               { stored with
                 lectures := course.lectures ++
                   [({ _id := X.newObjectId, lecture := some lectureFile, title := title,
                       description := description } : Lecture)]
                 numberOfLectures := (course.lectures ++
                   [({ _id := X.newObjectId, lecture := some lectureFile, title := title,
                       description := description } : Lecture)]).length }
             else stored))) := by
  unfold createLectureFn
  split
  · exact Or.inl ⟨_, rfl, rfl⟩
  · split
    · exact Or.inl ⟨_, rfl, rfl⟩
    · rename_i course hc
      split
      · exact Or.inl ⟨_, rfl, rfl⟩
      · split
        · exact Or.inl ⟨_, rfl, rfl⟩
        · rename_i lectureFile _
          exact Or.inr ⟨course, lectureFile.url, _, hc, rfl⟩

/-- The outcome of `deleteAllLectures`: an error that writes nothing, or the
saved course with no lecture and the count zero. -/
theorem deleteAllLecturesFn_cases (courses : List Course) (courseId : ObjectId) :
    (∃ e, e.code = none ∧ deleteAllLecturesFn courses courseId = (Except.error e, courses)) ∨
    (∃ course body, Course.findById courses courseId = some course ∧
      deleteAllLecturesFn courses courseId
        = (Except.ok { status := 200, cookies := [], body := body },
           courses.map (fun stored =>
             if stored._id = course._id then
               { stored with lectures := [], numberOfLectures := 0 }
             else stored))) := by
  unfold deleteAllLecturesFn
  split
  · exact Or.inl ⟨_, rfl, rfl⟩
  · rename_i course hc
    exact Or.inr ⟨course, _, hc, rfl⟩

/-- When no course holds a lecture with the id, `findOneAndUpdate` leaves the
collection as it was. -/
theorem findOneAndPullLecture_none (lectureId : ObjectId) :
    ∀ (courses courses1 : List Course),
      findOneAndPullLecture lectureId courses = (none, courses1) → courses1 = courses := by
  intro courses
  induction courses with
  | nil => intro courses1 h; simp [findOneAndPullLecture] at h; exact h
  | cons c cs ih =>
      intro courses1 h
      unfold findOneAndPullLecture at h
      split at h
      · simp at h
      · cases hrec : findOneAndPullLecture lectureId cs with
        | mk found cs1 =>
            rw [hrec] at h
            simp only [Prod.mk.injEq] at h
            obtain ⟨rfl, rfl⟩ := h
            rw [ih cs1 hrec]

/-- When `findOneAndUpdate` finds a course, that course held a lecture with the
id, the returned course is it without the lectures of that id, and the
collection holds the returned course in its place and is otherwise as it was. -/
theorem findOneAndPullLecture_some (lectureId : ObjectId) :
    ∀ (courses courses1 : List Course) (c1 : Course),
      findOneAndPullLecture lectureId courses = (some c1, courses1) →
      ∃ c ∈ courses, (∃ l ∈ c.lectures, l._id = lectureId) ∧
        c1 = { c with lectures := c.lectures.filter (fun l => decide (l._id ≠ lectureId)) } ∧
        courses1.map (fun d => d._id) = courses.map (fun d => d._id) ∧
        c1 ∈ courses1 ∧ ∀ d ∈ courses1, d = c1 ∨ d ∈ courses := by
  intro courses
  induction courses with
  | nil => intro courses1 c1 h; simp [findOneAndPullLecture] at h
  | cons c cs ih =>
      intro courses1 c1 h
      unfold findOneAndPullLecture at h
      split at h
      · rename_i hany
        simp only [Prod.mk.injEq, Option.some.injEq] at h
        obtain ⟨rfl, rfl⟩ := h
        refine ⟨c, List.mem_cons_self _ _, ?_, rfl, by simp, List.mem_cons_self _ _, ?_⟩
        · simpa using hany
        · intro d hd
          rcases List.mem_cons.mp hd with rfl | hd
          · exact Or.inl rfl
          · exact Or.inr (List.mem_cons_of_mem _ hd)
      · cases hrec : findOneAndPullLecture lectureId cs with
        | mk found cs1 =>
            rw [hrec] at h
            simp only [Prod.mk.injEq] at h
            obtain ⟨rfl, rfl⟩ := h
            obtain ⟨c0, hc0, hl, hc1, hids, hmem, hrest⟩ := ih cs1 c1 hrec
            refine ⟨c0, List.mem_cons_of_mem _ hc0, hl, hc1, by simp [hids],
              List.mem_cons_of_mem _ hmem, ?_⟩
            intro d hd
            rcases List.mem_cons.mp hd with rfl | hd
            · exact Or.inr (List.mem_cons_self _ _)
            · rcases hrest d hd with h1 | h1
              · exact Or.inl h1
              · exact Or.inr (List.mem_cons_of_mem _ h1)

/-- When `findOneAndUpdate` finds no course, no stored course holds a lecture
with the id. -/
theorem findOneAndPullLecture_none_all (lectureId : ObjectId) :
    ∀ (courses courses1 : List Course),
      findOneAndPullLecture lectureId courses = (none, courses1) →
      ∀ c ∈ courses, ∀ l ∈ c.lectures, l._id ≠ lectureId := by
  intro courses
  induction courses with
  | nil => intro _ _ c hc; cases hc
  | cons c cs ih =>
      intro courses1 h d hd
      unfold findOneAndPullLecture at h
      split at h
      · simp at h
      · rename_i hany
        cases hrec : findOneAndPullLecture lectureId cs with
        | mk found cs1 =>
            rw [hrec] at h
            simp only [Prod.mk.injEq] at h
            obtain ⟨rfl, _⟩ := h
            rcases List.mem_cons.mp hd with rfl | hd
            · intro l hl hid
              exact hany (List.any_eq_true.mpr ⟨l, hl, by simpa using hid⟩)
            · exact ih cs1 hrec d hd

/-- C27: after a successful `createLecture` the saved course has one lecture
more than the course found and `numberOfLectures` equal to the number of its
lectures; after a successful `deleteAllLectures` it has no lecture and the
count zero; after a successful `deleteLecture` (course ids being distinct) the
saved course has lost exactly its lectures with the given id and its count
equals the number of lectures left.  Each of the three succeeds: `createLecture`
on a complete request for a stored course whose file is uploaded,
`deleteAllLectures` on a stored course, `deleteLecture` on the id of a stored
lecture. -/
theorem lectures_count_invariant (X : Ext) (courses : List Course) (id courseId lectureId : ObjectId)
    (title description file : Option String) :
    ((createLecture X courses id title description file).1.status = 201 →
      ∃ course ∈ courses, course._id = id ∧
        (∃ c ∈ (createLecture X courses id title description file).2, c._id = id) ∧
        ∀ c ∈ (createLecture X courses id title description file).2, c._id = id →
          c.numberOfLectures = c.lectures.length ∧
          c.lectures.length = course.lectures.length + 1 ∧
          ∃ l, c.lectures = course.lectures ++ [l]) ∧
    ((deleteAllLectures courses courseId).1.status = 200 →
      (∃ c ∈ (deleteAllLectures courses courseId).2, c._id = courseId) ∧
      ∀ c ∈ (deleteAllLectures courses courseId).2, c._id = courseId →
        c.lectures = [] ∧ c.numberOfLectures = c.lectures.length) ∧
    ((courses.map (fun c => c._id)).Nodup →
      (deleteLecture courses lectureId).1.status = 200 →
      ∃ course ∈ courses, (∃ l ∈ course.lectures, l._id = lectureId) ∧
        (∃ c ∈ (deleteLecture courses lectureId).2, c._id = course._id) ∧
        ∀ c ∈ (deleteLecture courses lectureId).2, c._id = course._id →
          c.lectures = course.lectures.filter (fun l => decide (l._id ≠ lectureId)) ∧
          c.numberOfLectures = c.lectures.length) ∧
    (∀ (course : Course) (lectureFile : CloudinaryResponse), falsy title = false →
      falsy description = false → falsy file = false →
      Course.findById courses id = some course →
      uploadOnCloudinary X file = some lectureFile →
      (createLecture X courses id title description file).1.status = 201) ∧
    (∀ course : Course, Course.findById courses courseId = some course →
      (deleteAllLectures courses courseId).1.status = 200) ∧
    (∀ course ∈ courses, (∃ l ∈ course.lectures, l._id = lectureId) →
      (deleteLecture courses lectureId).1.status = 200) := by
  refine ⟨?_, ?_, ?_, ?_, ?_, ?_⟩
  · intro hok
    rcases createLectureFn_cases X courses id title description file with
      ⟨e, hcode, hfn⟩ | ⟨course, lectureFile, body, hfind, hfn⟩
    · rw [createLecture, hfn, asyncHandler_error _ _ hcode] at hok
      exact absurd hok (by simp)
    · obtain ⟨hmem, hid⟩ := course_findById_some hfind
      simp only [createLecture, asyncHandler_snd, hfn]
      refine ⟨course, hmem, hid, ?_, ?_⟩
      · exact ⟨_, List.mem_map.mpr ⟨course, hmem, rfl⟩, by simp [hid]⟩
      · intro c hc hcid
        obtain ⟨stored, _, rfl⟩ := List.mem_map.mp hc
        by_cases hs : stored._id = course._id
        · rw [if_pos hs]
          exact ⟨rfl, by simp, _, rfl⟩
        · simp only [hs, if_false] at hcid
          exact absurd (hcid.trans hid.symm) hs
  · intro hok
    rcases deleteAllLecturesFn_cases courses courseId with
      ⟨e, hcode, hfn⟩ | ⟨course, body, hfind, hfn⟩
    · rw [deleteAllLectures, hfn, asyncHandler_error _ _ hcode] at hok
      exact absurd hok (by simp)
    · obtain ⟨hmem, hid⟩ := course_findById_some hfind
      simp only [deleteAllLectures, asyncHandler_snd, hfn]
      refine ⟨?_, ?_⟩
      · exact ⟨_, List.mem_map.mpr ⟨course, hmem, rfl⟩, by simp [hid]⟩
      · intro c hc hcid
        obtain ⟨stored, _, rfl⟩ := List.mem_map.mp hc
        by_cases hs : stored._id = course._id
        · rw [if_pos hs]
          exact ⟨rfl, rfl⟩
        · simp only [hs, if_false] at hcid
          exact absurd (hcid.trans hid.symm) hs
  · intro hnodup hok
    cases hp : findOneAndPullLecture lectureId courses with
    | mk found courses1 =>
        cases found with
        | none =>
            have hfn : deleteLectureFn courses lectureId
                = (Except.error
                    (ApiError 404 "Couldn't find lecture with this ID. Please try again."),
                    courses1) := by
              unfold deleteLectureFn; rw [hp]
            rw [deleteLecture, hfn, asyncHandler_error _ _ rfl] at hok
            exact absurd hok (by simp)
        | some c1 =>
            obtain ⟨c, hc, hl, hc1, hids, hmem, _⟩ :=
              findOneAndPullLecture_some lectureId courses courses1 c1 hp
            have hid1 : c1._id = c._id := by rw [hc1]
            have hnodup1 : (courses1.map (fun d => d._id)).Nodup := by rw [hids]; exact hnodup
            have hdb : (deleteLecture courses lectureId).2
                = courses1.map (fun stored =>
                    if stored._id = c1._id then
                      { stored with numberOfLectures := c1.lectures.length }
                    else stored) := by
              rw [deleteLecture, asyncHandler_snd]
              unfold deleteLectureFn
              rw [hp]
              simp [Course.save]
            rw [hdb]
            refine ⟨c, hc, hl, ?_, ?_⟩
            · exact ⟨_, List.mem_map.mpr ⟨c1, hmem, rfl⟩, by simp [hid1]⟩
            · intro d hd hdid
              obtain ⟨stored, hs, rfl⟩ := List.mem_map.mp hd
              by_cases hsid : stored._id = c1._id
              · have hst : stored = c1 :=
                  List.inj_on_of_nodup_map hnodup1 hs hmem hsid
                rw [if_pos hsid, hst, hc1]
                exact ⟨rfl, rfl⟩
              · simp only [hsid, if_false] at hdid
                exact absurd (hdid.trans hid1.symm) hsid
  · intro course lectureFile ht hd hf hfind hup
    unfold createLecture createLectureFn
    simp [ht, hd, hf, hfind, hup, asyncHandler, Course.save]
  · intro course hfind
    simp [deleteAllLectures, deleteAllLecturesFn, hfind, asyncHandler, Course.save]
  · intro course hmem hl
    cases hp : findOneAndPullLecture lectureId courses with
    | mk found courses1 =>
        cases found with
        | none =>
            obtain ⟨l, hlm, hid⟩ := hl
            exact absurd hid
              (findOneAndPullLecture_none_all lectureId courses courses1 hp course hmem l hlm)
        | some c1 =>
            unfold deleteLecture deleteLectureFn
            rw [hp]
            simp [asyncHandler, Course.save]

/-- Witness of C27: on the sample course, with two lectures, a third lecture is
created, all lectures are deleted, and the lecture 11 is deleted. -/
theorem lectures_count_invariant_witness :
    (∃ course ∈ sampleCourses, course._id = 10 ∧
      (∃ c ∈ (createLecture sampleExt sampleCourses 10 (some "Types") (some "third")
          (some "/tmp/l3.mp4")).2, c._id = 10) ∧
      ∀ c ∈ (createLecture sampleExt sampleCourses 10 (some "Types") (some "third")
          (some "/tmp/l3.mp4")).2, c._id = 10 →
        c.numberOfLectures = c.lectures.length ∧
        c.lectures.length = course.lectures.length + 1 ∧
        ∃ l, c.lectures = course.lectures ++ [l]) ∧
    ((∃ c ∈ (deleteAllLectures sampleCourses 10).2, c._id = 10) ∧
      ∀ c ∈ (deleteAllLectures sampleCourses 10).2, c._id = 10 →
        c.lectures = [] ∧ c.numberOfLectures = c.lectures.length) ∧
    (∃ course ∈ sampleCourses, (∃ l ∈ course.lectures, l._id = 11) ∧
      (∃ c ∈ (deleteLecture sampleCourses 11).2, c._id = course._id) ∧
      ∀ c ∈ (deleteLecture sampleCourses 11).2, c._id = course._id →
        c.lectures = course.lectures.filter (fun l => decide (l._id ≠ 11)) ∧
        c.numberOfLectures = c.lectures.length) := by
  have T := lectures_count_invariant sampleExt sampleCourses 10 10 11 (some "Types")
    (some "third") (some "/tmp/l3.mp4")
  obtain ⟨hcreate, hdeleteAll, hdelete, hcreateOk, hdeleteAllOk, hdeleteOk⟩ := T
  refine ⟨hcreate (hcreateOk _ _ rfl rfl rfl rfl rfl), hdeleteAll (hdeleteAllOk _ rfl),
    hdelete (by decide) (hdeleteOk _ (List.mem_cons_self _ _) ⟨_, List.mem_cons_self _ _, rfl⟩)⟩

end LMS
